import Mathlib

/-!
Verification of the movement and collision engine of the ebiten-platformer
repository.  The Go source is shallowly embedded: `float64` becomes `ℚ`
(all constants in the source are dyadic and the claims are about exact
comparisons), Go structs become structures, mutating methods become
functions returning the updated value, and the bounded `for` loops of the
binary searches become fuel recursion with the source's iteration caps.
Rendering-only data (sprites, background images, animation controllers)
is omitted; it is never read by the collision or physics code.
-/

attribute [local semireducible] Rat.mul Rat.add Rat.sub Rat.inv

namespace Platformer

/-- Inclusive integer range `[lo..hi]`, the index set of a Go loop
`for i := lo; i <= hi; i++`. -/
def intRange (lo hi : Int) : List Int :=
  (List.range (hi + 1 - lo).toNat).map (fun k : Nat => lo + (k : Int))

/-! ## Tiles (src/level/tile.go) -/

/-- TileType from tile.go: Empty, Solid, Climbable, Spike, OneWay. -/
inductive TileType where
  | TileEmpty
  | TileSolid
  | TileClimbable
  | TileSpike
  | TileOneWay
deriving DecidableEq, Repr

export TileType (TileEmpty TileSolid TileClimbable TileSpike TileOneWay)

/-- Tile from tile.go.  The `Sprite` field (an image) is omitted. -/
structure Tile where
  type : TileType
  X : Int
  Y : Int
  Solid : Bool
  Climbable : Bool
deriving DecidableEq, Repr

/-- NewTile from tile.go: derived `Solid`/`Climbable` flags per type. -/
def NewTile (tileType : TileType) (x y : Int) : Tile :=
  { type := tileType
    X := x
    Y := y
    Solid :=
      match tileType with
      | TileEmpty => false
      | TileSolid => true
      | TileClimbable => true
      | TileSpike => false
      | TileOneWay => true
    Climbable :=
      match tileType with
      | TileEmpty => false
      | TileSolid => false
      | TileClimbable => true
      | TileSpike => false
      | TileOneWay => false }

def Tile.IsClimbable (t : Tile) : Bool := t.Climbable

def Tile.IsSolid (t : Tile) : Bool := t.Solid

def Tile.IsDangerous (t : Tile) : Bool := t.type = TileSpike

def Tile.IsOneWay (t : Tile) : Bool := t.type = TileOneWay

/-! ## Level and collision query (level.go, embedded from src/unnamed/part_007) -/

/-- GroundTolerance from level.go. -/
def GroundTolerance : ℚ := 2

/-- Level from level.go.  The `Background` image is omitted. -/
structure Level where
  Width : Int
  Height : Int
  TileSize : Int
  Tiles : List (List Tile)
  Name : String
deriving DecidableEq, Repr

/-- NewLevel: width × height grid of empty tiles. -/
def NewLevel (width height tileSize : Int) (name : String) : Level :=
  { Width := width
    Height := height
    TileSize := tileSize
    Tiles :=
      (List.range height.toNat).map (fun y =>
        (List.range width.toNat).map (fun x =>
          NewTile TileEmpty (x : Int) (y : Int)))
    Name := name }

def Level.IsValidCoord (l : Level) (x y : Int) : Bool :=
  decide (x ≥ 0) && decide (x < l.Width) && decide (y ≥ 0) && decide (y < l.Height)

/-- SetTile: in-bounds writes replace the tile, out-of-bounds writes are ignored. -/
def Level.SetTile (l : Level) (x y : Int) (tileType : TileType) : Level :=
  if l.IsValidCoord x y then
    { l with
      Tiles := l.Tiles.set y.toNat
        ((l.Tiles.getD y.toNat []).set x.toNat (NewTile tileType x y)) }
  else l

/-- GetTile: returns the stored tile in bounds, an Empty tile out of bounds. -/
def Level.GetTile (l : Level) (x y : Int) : Tile :=
  if l.IsValidCoord x y then
    (l.Tiles.getD y.toNat []).getD x.toNat (NewTile TileEmpty x y)
  else
    NewTile TileEmpty x y

/-- World-space bounds of a tile (getTileBounds in level.go). -/
structure TileBounds where
  X : ℚ
  Y : ℚ
  Width : ℚ
  Height : ℚ
deriving DecidableEq, Repr

def Level.getTileBounds (l : Level) (tileX tileY : Int) : TileBounds :=
  { X := ((tileX * l.TileSize : Int) : ℚ)
    Y := ((tileY * l.TileSize : Int) : ℚ)
    Width := ((l.TileSize : Int) : ℚ)
    Height := ((l.TileSize : Int) : ℚ) }

def Level.rectanglesOverlap (_ : Level) (x1 y1 w1 h1 x2 y2 w2 h2 : ℚ) : Bool :=
  decide (x1 < x2 + w2) && decide (x1 + w1 > x2) &&
  decide (y1 < y2 + h2) && decide (y1 + h1 > y2)

def Level.getOverlapX (_ : Level) (x1 w1 x2 w2 : ℚ) : ℚ :=
  min (x1 + w1) (x2 + w2) - max x1 x2

def Level.getOverlapY (_ : Level) (y1 h1 y2 h2 : ℚ) : ℚ :=
  min (y1 + h1) (y2 + h2) - max y1 y2

/-- CollisionResult from level.go (field-identical to the entities-side copy
mirrored by the CollisionAdapter). -/
structure CollisionResult where
  Collided : Bool
  CollisionX : Bool
  CollisionY : Bool
  PenetrationX : ℚ
  PenetrationY : ℚ
  OnGround : Bool
  TouchingWall : Bool
  ClimbableSurface : Bool
  DangerousTile : Bool
  OneWayPlatform : Bool
deriving DecidableEq, Repr

/-- Zero value of CollisionResult (`&CollisionResult{}` in Go). -/
def emptyResult : CollisionResult :=
  { Collided := false, CollisionX := false, CollisionY := false
    PenetrationX := 0, PenetrationY := 0, OnGround := false
    TouchingWall := false, ClimbableSurface := false
    DangerousTile := false, OneWayPlatform := false }

/-- processCollision from level.go: updates `result` for one overlapping,
non-empty tile, in the statement order of the source. -/
def Level.processCollision (l : Level) (result : CollisionResult) (tile : Tile)
    (entityX entityY entityWidth entityHeight : ℚ) (tb : TileBounds) : CollisionResult :=
  let result := { result with Collided := true }
  let overlapX := l.getOverlapX entityX entityWidth tb.X tb.Width
  let overlapY := l.getOverlapY entityY entityHeight tb.Y tb.Height
  let result :=
    if tile.IsSolid then
      let entityBottom := entityY + entityHeight
      let tileTop := tb.Y
      let isOnGround : Bool :=
        decide (entityBottom ≥ tileTop) && decide (entityBottom ≤ tileTop + GroundTolerance)
      let result := if isOnGround then { result with OnGround := true } else result
      if isOnGround then
        let entityCenterX := entityX + entityWidth / 2
        if decide (overlapX > entityWidth * (3/4)) &&
            (decide (entityCenterX < tb.X + 4) ||
             decide (entityCenterX > tb.X + tb.Width - 4)) then
          { result with TouchingWall := true, CollisionX := true, PenetrationX := overlapX }
        else result
      else
        let result :=
          if decide (overlapX > 2) && (decide (overlapX < overlapY) || decide (overlapY < 2)) then
            { result with TouchingWall := true, CollisionX := true, PenetrationX := overlapX }
          else result
        if decide (overlapY > 2) && (decide (overlapY < overlapX) || decide (overlapX < 2)) then
          { result with CollisionY := true, PenetrationY := overlapY }
        else result
    else result
  let result :=
    if tile.IsOneWay then
      let entityBottom := entityY + entityHeight
      let tileTop := tb.Y
      if decide (entityBottom ≥ tileTop) && decide (entityBottom ≤ tileTop + GroundTolerance) then
        { result with OnGround := true, OneWayPlatform := true, CollisionY := true,
                      PenetrationY := entityBottom - tileTop }
      else result
    else result
  let result := if tile.IsClimbable then { result with ClimbableSurface := true } else result
  if tile.IsDangerous then { result with DangerousTile := true } else result

/-- Body of the main overlap loop of CheckCollision for one cell. -/
def Level.overlapStep (l : Level) (entityX entityY entityWidth entityHeight : ℚ)
    (result : CollisionResult) (tileX tileY : Int) : CollisionResult :=
  let tile := l.GetTile tileX tileY
  if tile.type = TileEmpty then result
  else
    let tb := l.getTileBounds tileX tileY
    if l.rectanglesOverlap entityX entityY entityWidth entityHeight
        tb.X tb.Y tb.Width tb.Height then
      l.processCollision result tile entityX entityY entityWidth entityHeight tb
    else result

/-- Body of the ground-contact loop of CheckCollision (the row directly
below the box) for one cell. -/
def Level.groundStep (l : Level) (entityX entityY entityWidth entityHeight : ℚ)
    (belowTile : Int) (result : CollisionResult) (tileX : Int) : CollisionResult :=
  let tile := l.GetTile tileX belowTile
  if tile.type = TileEmpty then result
  else
    let tb := l.getTileBounds tileX belowTile
    let entityBottom := entityY + entityHeight
    let tileTop := tb.Y
    if decide (entityBottom ≥ tileTop) && decide (entityBottom ≤ tileTop + GroundTolerance) &&
        decide (entityX < tb.X + tb.Width) && decide (entityX + entityWidth > tb.X) then
      let result := { result with Collided := true }
      let result :=
        if tile.IsSolid || tile.IsOneWay then { result with OnGround := true } else result
      let result := if tile.IsOneWay then { result with OneWayPlatform := true } else result
      let result :=
        if tile.IsClimbable then { result with ClimbableSurface := true } else result
      if tile.IsDangerous then { result with DangerousTile := true } else result
    else result

/-- CheckCollision from level.go: scan the tiles overlapped by the box, then
the row directly below it, accumulating a CollisionResult. -/
def Level.CheckCollision (l : Level) (entityX entityY entityWidth entityHeight : ℚ) :
    CollisionResult :=
  let ts : ℚ := ((l.TileSize : Int) : ℚ)
  let leftTile := ⌊entityX / ts⌋
  let rightTile := ⌊(entityX + entityWidth - 1) / ts⌋
  let topTile := ⌊entityY / ts⌋
  let bottomTile := ⌊(entityY + entityHeight - 1) / ts⌋
  let belowTile := ⌊(entityY + entityHeight) / ts⌋
  let result :=
    (intRange topTile bottomTile).foldl
      (fun result tileY =>
        (intRange leftTile rightTile).foldl
          (fun result tileX =>
            l.overlapStep entityX entityY entityWidth entityHeight result tileX tileY)
          result)
      emptyResult
  if belowTile > bottomTile then
    (intRange leftTile rightTile).foldl
      (l.groundStep entityX entityY entityWidth entityHeight belowTile)
      result
  else result

/-! ## Player (src/entities/player.go) -/

def BinarySearchMaxIterations : Nat := 50

def BinarySearchMaxIterationsY : Nat := 30

def BinarySearchTolerance : ℚ := 1/100

def BinarySearchToleranceY : ℚ := 1/10

/-- Player from player.go.  The AnimationController is omitted (pure
rendering bookkeeping); the `level` interface field holds the Level the
CollisionAdapter wraps, `none` when no level is set. -/
structure Player where
  X : ℚ
  Y : ℚ
  VelocityX : ℚ
  VelocityY : ℚ
  Width : ℚ
  Height : ℚ
  Speed : ℚ
  JumpSpeed : ℚ
  Gravity : ℚ
  Friction : ℚ
  OnGround : Bool
  FacingRight : Bool
  IsJumping : Bool
  IsMoving : Bool
  IsClimbing : Bool
  IsDamaged : Bool
  DamageTimer : ℚ
  DamageTime : ℚ
  CoyoteTime : ℚ
  CoyoteTimer : ℚ
  WasOnGroundPhysics : Bool
  level : Option Level
deriving DecidableEq, Repr

/-- NewPlayer from player.go (the sprite-sheet argument is rendering-only
and omitted). -/
def NewPlayer (x y : ℚ) : Player :=
  { X := x
    Y := y
    VelocityX := 0
    VelocityY := 0
    Width := 32
    Height := 32
    Speed := 120
    JumpSpeed := 200
    Gravity := 500
    Friction := 4/5
    OnGround := false
    FacingRight := true
    IsJumping := false
    IsMoving := false
    IsClimbing := false
    IsDamaged := false
    DamageTimer := 0
    DamageTime := 1
    CoyoteTime := 1/10
    CoyoteTimer := 0
    WasOnGroundPhysics := false
    level := none }

def Player.SetLevel (p : Player) (lv : Level) : Player :=
  { p with level := some lv }

def Player.MoveLeft (p : Player) : Player :=
  if ¬p.IsDamaged then { p with VelocityX := -p.Speed, FacingRight := false } else p

def Player.MoveRight (p : Player) : Player :=
  if ¬p.IsDamaged then { p with VelocityX := p.Speed, FacingRight := true } else p

def Player.Jump (p : Player) : Player :=
  if (p.OnGround ∨ p.CoyoteTimer > 0) ∧ ¬p.IsDamaged then
    { p with VelocityY := -p.JumpSpeed, IsJumping := true, OnGround := false, CoyoteTimer := 0 }
  else p

def Player.StartClimbing (p : Player) : Player :=
  if ¬p.IsDamaged then { p with IsClimbing := true, VelocityY := 0, Gravity := 0 } else p

def Player.StopClimbing (p : Player) : Player :=
  { p with IsClimbing := false, Gravity := 500 }

def Player.ClimbUp (p : Player) : Player :=
  if p.IsClimbing ∧ ¬p.IsDamaged then { p with VelocityY := -p.Speed * (7/10) } else p

def Player.ClimbDown (p : Player) : Player :=
  if p.IsClimbing ∧ ¬p.IsDamaged then { p with VelocityY := p.Speed * (7/10) } else p

def Player.TakeDamage (p : Player) : Player :=
  if ¬p.IsDamaged then
    { p with IsDamaged := true, DamageTimer := p.DamageTime, VelocityX := 0 }
  else p

/-- Loop of binarySearchCollisionX for `deltaX > 0` (moving right); both the
early return and the post-cap return yield the current `left`. -/
def bsXPosLoop (lv : Level) (y w h : ℚ) : Nat → ℚ → ℚ → ℚ
  | 0, left, _ => left
  | fuel + 1, left, right =>
      if |right - left| < BinarySearchTolerance then left
      else
        let mid := (left + right) / 2
        if (lv.CheckCollision mid y w h).CollisionX then bsXPosLoop lv y w h fuel left mid
        else bsXPosLoop lv y w h fuel mid right

/-- Loop of binarySearchCollisionX for `deltaX ≤ 0` (moving left); both the
early return and the post-cap return yield the current `right`. -/
def bsXNegLoop (lv : Level) (y w h : ℚ) : Nat → ℚ → ℚ → ℚ
  | 0, _, right => right
  | fuel + 1, left, right =>
      if |right - left| < BinarySearchTolerance then right
      else
        let mid := (left + right) / 2
        if (lv.CheckCollision mid y w h).CollisionX then bsXNegLoop lv y w h fuel mid right
        else bsXNegLoop lv y w h fuel left mid

/-- binarySearchCollisionX from player.go: returns the final X position and
the player with VelocityX zeroed. -/
def Player.binarySearchCollisionX (p : Player) (lv : Level) (startX y deltaX : ℚ) :
    ℚ × Player :=
  let left := startX
  let right := startX + deltaX
  if deltaX > 0 then
    (bsXPosLoop lv y p.Width p.Height BinarySearchMaxIterations left right,
     { p with VelocityX := 0 })
  else
    (bsXNegLoop lv y p.Width p.Height BinarySearchMaxIterations left right,
     { p with VelocityX := 0 })

/-- sweptHorizontalMovement from player.go. -/
def Player.sweptHorizontalMovement (p : Player) (lv : Level) (startX y deltaX : ℚ) :
    ℚ × Player :=
  let targetX := startX + deltaX
  let result := lv.CheckCollision targetX y p.Width p.Height
  if ¬result.CollisionX then (targetX, p)
  else p.binarySearchCollisionX lv startX y deltaX

/-- Loop of binarySearchCollisionY for `deltaY > 0` (falling); the state is
(left, right, bestValidY). -/
def bsYDownLoop (lv : Level) (x w h : ℚ) : Nat → ℚ × ℚ × ℚ → ℚ × ℚ × ℚ
  | 0, s => s
  | fuel + 1, (left, right, best) =>
      if |right - left| < BinarySearchToleranceY then (left, right, best)
      else
        let mid := (left + right) / 2
        let r := lv.CheckCollision x mid w h
        if r.CollisionY ∨ r.OnGround then bsYDownLoop lv x w h fuel (left, mid, best)
        else bsYDownLoop lv x w h fuel (mid, right, mid)

/-- The forward scan after the downward binary search: offsets 0, 0.1, ...,
1.0 from the best valid Y; returns the first contact position together with
that query's OnGround flag.  (The Go loop `for offset := 0.0; offset <= 1.0;
offset += 0.1` runs 11 probes; fuel 12 covers them.) -/
def bsYScanLoop (lv : Level) (x w h finalY : ℚ) : Nat → ℚ → Option (ℚ × Bool)
  | 0, _ => none
  | fuel + 1, offset =>
      if offset ≤ 1 then
        let testY := finalY + offset
        let r := lv.CheckCollision x testY w h
        if r.OnGround ∨ r.CollisionY then some (testY, r.OnGround)
        else bsYScanLoop lv x w h finalY fuel (offset + 1/10)
      else none

/-- Loop of binarySearchCollisionY for `deltaY ≤ 0` (moving up); state is
(left, right), returning `right` afterwards. -/
def bsYUpLoop (lv : Level) (x w h : ℚ) : Nat → ℚ × ℚ → ℚ × ℚ
  | 0, s => s
  | fuel + 1, (left, right) =>
      if |right - left| < BinarySearchToleranceY then (left, right)
      else
        let mid := (left + right) / 2
        if (lv.CheckCollision x mid w h).CollisionY then bsYUpLoop lv x w h fuel (mid, right)
        else bsYUpLoop lv x w h fuel (left, mid)

/-- binarySearchCollisionY from player.go: returns the final Y position and
the player with OnGround/IsJumping/VelocityY updated as in the source. -/
def Player.binarySearchCollisionY (p : Player) (lv : Level) (x startY deltaY : ℚ) :
    ℚ × Player :=
  if deltaY > 0 then
    let s := bsYDownLoop lv x p.Width p.Height BinarySearchMaxIterationsY
      (startY, startY + deltaY, startY)
    let finalY := s.2.2
    match bsYScanLoop lv x p.Width p.Height finalY 12 0 with
    | some hit =>
        let p := if hit.2 then { p with OnGround := true, IsJumping := false } else p
        (hit.1, { p with VelocityY := 0 })
    | none => (finalY, p)
  else
    let s := bsYUpLoop lv x p.Width p.Height BinarySearchMaxIterationsY
      (startY + deltaY, startY)
    (s.2, { p with VelocityY := 0 })

/-- sweptVerticalMovement from player.go. -/
def Player.sweptVerticalMovement (p : Player) (lv : Level) (x startY deltaY : ℚ) :
    ℚ × Player :=
  let targetY := startY + deltaY
  let result := lv.CheckCollision x targetY p.Width p.Height
  if ¬result.CollisionY ∧ ¬result.OnGround then (targetY, p)
  else p.binarySearchCollisionY lv x startY deltaY

/-- performSweptMovement from player.go: horizontal axis first, then
vertical at the corrected X. -/
def Player.performSweptMovement (p : Player) (startX startY deltaX deltaY : ℚ) :
    ℚ × ℚ × Player :=
  match p.level with
  | none => (startX + deltaX, startY + deltaY, p)
  | some lv =>
      let rx :=
        if deltaX ≠ 0 then p.sweptHorizontalMovement lv startX startY deltaX
        else (startX, p)
      let ry :=
        if deltaY ≠ 0 then rx.2.sweptVerticalMovement lv rx.1 startY deltaY
        else (startY, rx.2)
      (rx.1, ry.1, ry.2)

/-- Gravity (when airborne) followed by friction, as at the top of
updatePhysics. -/
def Player.integrateForces (p : Player) (dt : ℚ) : Player :=
  let p := if ¬p.OnGround then { p with VelocityY := p.VelocityY + p.Gravity * dt } else p
  { p with VelocityX := p.VelocityX * p.Friction }

/-- updateSimplePhysics from player.go (fallback when no level is set). -/
def Player.updateSimplePhysics (p : Player) (deltaX deltaY : ℚ) : Player :=
  let p := { p with X := p.X + deltaX, Y := p.Y + deltaY }
  if p.Y ≥ 300 then
    { p with Y := 300, VelocityY := 0, OnGround := true, IsJumping := false }
  else { p with OnGround := false }

/-- The movement phase of updatePhysics with a level: forces, IsMoving,
OnGround reset, swept movement, and the fresh post-movement collision
query.  Returns the moved player and that query's result. -/
def Player.moveAndQuery (p : Player) (dt : ℚ) (lv : Level) : Player × CollisionResult :=
  let prevX := p.X
  let prevY := p.Y
  let p1 := p.integrateForces dt
  let deltaX := p1.VelocityX * dt
  let deltaY := p1.VelocityY * dt
  let p2 := { p1 with IsMoving := decide (|p1.VelocityX| > 10) }
  let p3 := { p2 with OnGround := false }
  let m := p3.performSweptMovement prevX prevY deltaX deltaY
  let p5 := { m.2.2 with X := m.1, Y := m.2.1 }
  (p5, lv.CheckCollision p5.X p5.Y p5.Width p5.Height)

/-- updatePhysics from player.go.  (The Go source checks `p.level == nil`
after applying forces; forces do not read or write `level`, so branching
first is equivalent.) -/
def Player.updatePhysics (p : Player) (dt : ℚ) : Player :=
  match p.level with
  | none =>
      let p1 := p.integrateForces dt
      let p2 := { p1 with IsMoving := decide (|p1.VelocityX| > 10) }
      p2.updateSimplePhysics (p1.VelocityX * dt) (p1.VelocityY * dt)
  | some lv =>
      let prevOnGround := p.OnGround
      let mq := p.moveAndQuery dt lv
      let p5 := mq.1
      let result := mq.2
      let p6 :=
        if result.OnGround ∧ ¬p5.OnGround then
          let pa := { p5 with OnGround := true, IsJumping := false }
          if pa.VelocityY > 0 then { pa with VelocityY := 0 } else pa
        else p5
      let p7 :=
        if ¬result.OnGround ∧ ¬result.CollisionY then
          if prevOnGround ∧ |p6.VelocityY| < 1/2 ∧ |p6.VelocityX| < 5 then
            { p6 with OnGround := true }
          else { p6 with OnGround := false }
        else p6
      if result.DangerousTile ∧ ¬p7.IsDamaged then p7.TakeDamage else p7

/-- updateCoyoteTime from player.go. -/
def Player.updateCoyoteTime (p : Player) (dt : ℚ) : Player :=
  let p :=
    if p.WasOnGroundPhysics ∧ ¬p.OnGround ∧ ¬p.IsJumping then
      if p.CoyoteTimer ≤ 0 then { p with CoyoteTimer := p.CoyoteTime } else p
    else p
  let p :=
    if p.CoyoteTimer > 0 then
      let p := { p with CoyoteTimer := p.CoyoteTimer - dt }
      if p.CoyoteTimer < 0 then { p with CoyoteTimer := 0 } else p
    else p
  let p := if p.OnGround ∧ p.VelocityY ≥ 0 then { p with CoyoteTimer := 0 } else p
  { p with WasOnGroundPhysics := p.OnGround }

/-- Update from player.go: damage-timer countdown, physics, coyote time.
(Animation-state derivation is rendering-only and omitted.) -/
def Player.Update (p : Player) (dt : ℚ) : Player :=
  let p :=
    if p.DamageTimer > 0 then
      let p := { p with DamageTimer := p.DamageTimer - dt }
      if p.DamageTimer ≤ 0 then { p with IsDamaged := false } else p
    else p
  let p := p.updatePhysics dt
  p.updateCoyoteTime dt

/-! ## Concrete scenario levels from the repository's tests -/

/-- The level of TestExtremeSpeedCollision: one solid tile at grid (2,5),
world rectangle [64,96] × [160,192], in a 10 × 10 grid of 32-pixel tiles. -/
def extremeLevel : Level := (NewLevel 10 10 32 "Extreme Speed Test").SetTile 2 5 TileSolid

/-- The level of TestDebugOverlapCalculation: one solid tile at grid (3,7),
world rectangle [96,128] × [224,256]. -/
def overlapLevel : Level := (NewLevel 10 10 32 "debug_overlap_test").SetTile 3 7 TileSolid

/-- The level of TestOneWayPlatform: one one-way tile at grid (1,1),
world rectangle [32,64] × [32,64], in a 5 × 5 grid. -/
def oneWayLevel : Level := (NewLevel 5 5 32 "Test").SetTile 1 1 TileOneWay

/-- A level with one solid tile at grid (0,5), world [0,32] × [160,192],
used to drive the leftward horizontal binary search into a wall. -/
def wallLevel : Level := (NewLevel 10 10 32 "Wall Test").SetTile 0 5 TileSolid

/-- Tile read as an explicit state transaction: the Go method only reads the
grid, so the state it returns is the state it was given. -/
def Level.GetTileSt (l : Level) (x y : Int) : Tile × Level :=
  (l.GetTile x y, l)

/-- overlapStep with the grid threaded through the tile read as state. -/
def Level.overlapStepSt (eX eY eW eH : ℚ) (acc : CollisionResult × Level)
    (tileX tileY : Int) : CollisionResult × Level :=
  let t := acc.2.GetTileSt tileX tileY
  let tile := t.1
  let l := t.2
  if tile.type = TileEmpty then (acc.1, l)
  else
    let tb := l.getTileBounds tileX tileY
    if l.rectanglesOverlap eX eY eW eH tb.X tb.Y tb.Width tb.Height then
      (l.processCollision acc.1 tile eX eY eW eH tb, l)
    else (acc.1, l)

/-- groundStep with the grid threaded through the tile read as state. -/
def Level.groundStepSt (eX eY eW eH : ℚ) (belowTile : Int)
    (acc : CollisionResult × Level) (tileX : Int) : CollisionResult × Level :=
  let t := acc.2.GetTileSt tileX belowTile
  let l := t.2
  (l.groundStep eX eY eW eH belowTile acc.1 tileX, l)

/-- CheckCollision in state-passing form: every tile access threads the grid
through, mirroring the sequence of reads the Go method performs; the final
grid is returned alongside the result. -/
def Level.CheckCollisionSt (l : Level) (eX eY eW eH : ℚ) : CollisionResult × Level :=
  let ts : ℚ := ((l.TileSize : Int) : ℚ)
  let leftTile := ⌊eX / ts⌋
  let rightTile := ⌊(eX + eW - 1) / ts⌋
  let topTile := ⌊eY / ts⌋
  let bottomTile := ⌊(eY + eH - 1) / ts⌋
  let belowTile := ⌊(eY + eH) / ts⌋
  let acc :=
    (intRange topTile bottomTile).foldl
      (fun acc tileY =>
        (intRange leftTile rightTile).foldl
          (fun acc tileX => Level.overlapStepSt eX eY eW eH acc tileX tileY)
          acc)
      (emptyResult, l)
  if belowTile > bottomTile then
    (intRange leftTile rightTile).foldl (Level.groundStepSt eX eY eW eH belowTile) acc
  else acc

/-- A player that is climbing and (already) damaged; reachable by
StartClimbing followed by TakeDamage. -/
def damagedClimber : Player :=
  { NewPlayer 0 0 with IsDamaged := true, IsClimbing := true }

/-- The coyote-time invariant of claim C10. -/
def coyoteInv (p : Player) : Prop :=
  0 ≤ p.CoyoteTimer ∧ p.CoyoteTimer ≤ p.CoyoteTime

/-- The starting player of the tunneling scenario (claim C1): a 32 × 32 box
at X = 64 over the single solid tile of extremeLevel, with a given starting
Y and downward velocity, as in TestExtremeSpeedCollision. -/
def C1State (y v : ℚ) : Player :=
  { (NewPlayer 64 y).SetLevel extremeLevel with VelocityY := v }

/-- The tick trajectory of the tunneling scenario: repeated Update at the
test's 60 FPS timestep. -/
def C1Traj (y v : ℚ) : Nat → Player
  | 0 => C1State y v
  | n + 1 => (C1Traj y v n).Update (1/60)

/-- Machine-checked state invariant for the tunneling scenario: the fields
the vertical physics relies on, plus position bounds tied to the on-ground
flag (tile top edge at world Y = 160, box height 32, tolerance 2). -/
def C1Inv (s : Player) : Prop :=
  s.X = 64 ∧ s.VelocityX = 0 ∧ s.Width = 32 ∧ s.Height = 32 ∧ s.Gravity = 500 ∧
  s.level = some extremeLevel ∧ 0 ≤ s.VelocityY ∧
  (s.OnGround = false → s.Y ≤ 128) ∧
  (s.OnGround = true → 128 ≤ s.Y ∧ s.Y ≤ 130 ∧ s.VelocityY = 0)

/-- The player state right before the swept movement inside moveAndQuery:
forces applied, IsMoving refreshed, OnGround cleared. -/
def c1Pre (s : Player) : Player :=
  { s.integrateForces (1/60) with
    IsMoving := decide (|(s.integrateForces (1/60)).VelocityX| > 10), OnGround := false }

/-! ## Theorems for the claims -/

theorem mem_intRange {lo hi a : Int} : a ∈ intRange lo hi ↔ lo ≤ a ∧ a ≤ hi := by
  unfold intRange
  simp only [List.mem_map, List.mem_range]
  constructor
  · rintro ⟨k, hk, rfl⟩
    omega
  · rintro ⟨h1, h2⟩
    exact ⟨(a - lo).toNat, by omega, by omega⟩

theorem foldl_congr_id {β : Type} {f : β → Int → β} {L : List Int} {b : β}
    (h : ∀ b' x, x ∈ L → f b' x = b') : L.foldl f b = b := by
  induction L generalizing b with
  | nil => rfl
  | cons x xs ih =>
      rw [List.foldl_cons, h b x (List.mem_cons_self x xs)]
      exact ih (fun b' y hy => h b' y (List.mem_cons_of_mem x hy))

theorem intRange_nil {lo hi : Int} (h : hi < lo) : intRange lo hi = [] := by
  unfold intRange
  have h0 : (hi + 1 - lo).toNat = 0 := by omega
  rw [h0]
  rfl

theorem intRange_cons {lo hi : Int} (h : lo ≤ hi) :
    intRange lo hi = lo :: intRange (lo + 1) hi := by
  unfold intRange
  have h1 : (hi + 1 - lo).toNat = 1 + (hi + 1 - (lo + 1)).toNat := by omega
  rw [h1, List.range_add, List.map_append, List.map_map]
  simp only [show List.range 1 = [0] from rfl, List.map_cons, List.map_nil, Nat.cast_zero,
    add_zero, List.singleton_append]
  congr 1
  apply List.map_congr_left
  intro k _
  simp only [Function.comp_apply]
  push_cast
  ring

theorem intRange_eq_append {lo c hi : Int} (h1 : lo ≤ c) (h2 : c ≤ hi) :
    intRange lo hi = intRange lo (c - 1) ++ c :: intRange (c + 1) hi := by
  rcases eq_or_lt_of_le h1 with hc | hc
  · subst hc
    rw [intRange_nil (show lo - 1 < lo by omega), intRange_cons h2, List.nil_append]
  · rw [intRange_cons (show lo ≤ hi by omega), intRange_cons (show lo ≤ c - 1 by omega),
      List.cons_append]
    exact congrArg (lo :: ·) (@intRange_eq_append (lo + 1) c hi (by omega) h2)
termination_by (c - lo).toNat
decreasing_by omega

/-- C6: a tile lookup at any out-of-bounds grid coordinate returns an Empty
tile (the lookup is total, it never indexes the tile array), and such a cell
contributes nothing to a collision query: both the overlap-loop step and the
ground-loop step of CheckCollision leave the accumulated result unchanged
there. -/
theorem out_of_bounds_empty (l : Level) (x y : Int)
    (h : l.IsValidCoord x y = false) :
    l.GetTile x y = NewTile TileEmpty x y ∧
    (∀ (result : CollisionResult) (eX eY eW eH : ℚ),
      l.overlapStep eX eY eW eH result x y = result) ∧
    (∀ (result : CollisionResult) (eX eY eW eH : ℚ),
      l.groundStep eX eY eW eH y result x = result) := by
  have hg : l.GetTile x y = NewTile TileEmpty x y := by
    unfold Level.GetTile
    rw [h]
    rfl
  refine ⟨hg, ?_, ?_⟩
  · intro result eX eY eW eH
    unfold Level.overlapStep
    rw [hg]
    rfl
  · intro result eX eY eW eH
    unfold Level.groundStep
    rw [hg]
    rfl

/-- Witness for C6: the 5 × 5 test grid at coordinate (-1,-1). -/
theorem out_of_bounds_empty_witness :
    (NewLevel 5 5 32 "Test").GetTile (-1) (-1) = NewTile TileEmpty (-1) (-1) ∧
    (NewLevel 5 5 32 "Test").overlapStep 0 0 32 32 emptyResult (-1) (-1) = emptyResult := by
  have h := out_of_bounds_empty (NewLevel 5 5 32 "Test") (-1) (-1) (by decide)
  exact ⟨h.1, h.2.1 emptyResult 0 0 32 32⟩

/-- C2 (code bug): with the claim's literal inputs — solid tile spanning
world X ∈ [96,128] (grid (3,7) of the 10 × 10 debug level), box of width 32
standing at the tile's top edge (Y = 192, bottom = 224) — CheckCollision
reports OnGround = true at X = 75 even though the horizontal overlap is
11 px (34 % < 50 %), and a full player Update at (75,192) also ends with
OnGround = true; the claim (and the repository's own
TestDebugOverlapCalculation) requires not-on-ground below 50 % overlap.
The ≥ 50 % cases X = 80 and X = 90 agree with the claim. -/
theorem edge_overlap_code_bug :
    overlapLevel.getOverlapX 75 32 96 32 = 11 ∧
    (overlapLevel.CheckCollision 75 192 32 32).OnGround = true ∧
    (((NewPlayer 75 192).SetLevel overlapLevel).Update (1/60)).OnGround = true ∧
    (overlapLevel.CheckCollision 80 192 32 32).OnGround = true ∧
    (overlapLevel.CheckCollision 90 192 32 32).OnGround = true := by
  refine ⟨by decide, by decide, by decide, by decide, by decide⟩

/-- C4 (code bug): a box overlapping a one-way tile from below
(box (32,40,32,32) against the one-way tile with top edge at world Y = 32;
the box's bottom edge is 40 units below the tile's top, far outside the
2-unit tolerance) is reported with CollisionY = true and Collided = true by
CheckCollision — because TileOneWay has Solid = true its overlap also runs
the solid-tile branch — even though the claim (and the "platform you can
jump through from below" comment in tile.go) says such an overlap
contributes no collision flags.  The approach-from-above case does behave
as claimed. -/
theorem oneWay_below_collision_code_bug :
    (oneWayLevel.CheckCollision 32 40 32 32).CollisionY = true ∧
    (oneWayLevel.CheckCollision 32 40 32 32).Collided = true ∧
    (oneWayLevel.CheckCollision 32 40 32 32).OnGround = false ∧
    (oneWayLevel.CheckCollision 32 30 32 4).OnGround = true ∧
    (oneWayLevel.CheckCollision 32 30 32 4).OneWayPlatform = true := by
  refine ⟨by decide, by decide, by decide, by decide, by decide⟩

/-- C7 (counterexample): StopClimbing is not a no-op while damaged — on a
damaged, climbing player it still clears IsClimbing (and resets Gravity),
so the claim that every listed movement command leaves a damaged player
unchanged is false. -/
theorem stopClimbing_not_noop_while_damaged :
    damagedClimber.IsDamaged = true ∧ damagedClimber.StopClimbing ≠ damagedClimber := by
  refine ⟨by decide, by decide⟩

/-- C7 (amended): while IsDamaged is true, moveLeft, moveRight, jump,
startClimbing, climbUp and climbDown are no-ops and takeDamage is
idempotent; stopClimbing, however, is unguarded and always clears
IsClimbing and restores Gravity to 500. -/
theorem damaged_commands_noop (p : Player) (h : p.IsDamaged = true) :
    p.MoveLeft = p ∧ p.MoveRight = p ∧ p.Jump = p ∧ p.StartClimbing = p ∧
    p.ClimbUp = p ∧ p.ClimbDown = p ∧ p.TakeDamage = p ∧
    p.StopClimbing = { p with IsClimbing := false, Gravity := 500 } := by
  unfold Player.MoveLeft Player.MoveRight Player.Jump Player.StartClimbing
    Player.ClimbUp Player.ClimbDown Player.TakeDamage Player.StopClimbing
  simp [h]

/-- Witness for C7 (amended), at the damaged climbing player. -/
theorem damaged_commands_noop_witness :
    damagedClimber.MoveLeft = damagedClimber ∧
    damagedClimber.TakeDamage = damagedClimber ∧
    damagedClimber.StopClimbing =
      { damagedClimber with IsClimbing := false, Gravity := 500 } := by
  have h := damaged_commands_noop damagedClimber (by decide)
  exact ⟨h.1, h.2.2.2.2.2.2.1, h.2.2.2.2.2.2.2⟩

/-- C3 (counterexample): a leftward horizontal resolution that enters the
binary search can return a blocked position.  On wallLevel (solid tile at
world [0,32] × [160,192]), a 32 × 32 box at Y = 160 moving from X = 35 by
-34 has a clear start and a blocked target (X = 1), so the call enters the
search — yet the search returns X = 1, the blocked target itself: the
contact query at the returned position reports CollisionX = true, refuting
"the returned position is a position at which the contact query reports no
collision on that axis".  (VelocityX is still zeroed.) -/
theorem binary_search_returns_blocked_position :
    (wallLevel.CheckCollision 35 160 32 32).CollisionX = false ∧
    (wallLevel.CheckCollision 1 160 32 32).CollisionX = true ∧
    ((NewPlayer 0 0).sweptHorizontalMovement wallLevel 35 160 (-34)).1 = 1 ∧
    ((NewPlayer 0 0).binarySearchCollisionX wallLevel 35 160 (-34)).1 = 1 ∧
    (((NewPlayer 0 0).binarySearchCollisionX wallLevel 35 160 (-34)).2).VelocityX = 0 := by
  refine ⟨by decide, by decide, by decide, by decide, by decide⟩

theorem bsXPosLoop_clear (lv : Level) (y w h : ℚ) :
    ∀ (fuel : Nat) (l r : ℚ), (lv.CheckCollision l y w h).CollisionX = false →
      (lv.CheckCollision (bsXPosLoop lv y w h fuel l r) y w h).CollisionX = false := by
  intro fuel
  induction fuel with
  | zero => intro l r hl; exact hl
  | succ n ih =>
      intro l r hl
      unfold bsXPosLoop
      dsimp only
      split
      · exact hl
      · split
        · exact ih l _ hl
        · rename_i hmid
          exact ih _ r (by simpa using hmid)

theorem bsYUpLoop_clear (lv : Level) (x w h : ℚ) :
    ∀ (fuel : Nat) (l r : ℚ), (lv.CheckCollision x r w h).CollisionY = false →
      (lv.CheckCollision x (bsYUpLoop lv x w h fuel (l, r)).2 w h).CollisionY = false := by
  intro fuel
  induction fuel with
  | zero => intro l r hr; exact hr
  | succ n ih =>
      intro l r hr
      unfold bsYUpLoop
      dsimp only
      split
      · exact hr
      · split
        · exact ih _ r hr
        · rename_i hmid
          exact ih l _ (by simpa using hmid)

/-- C3 (amended): for a resolution entering the binary search from a
position the contact query reports clear on that axis, rightward horizontal
movement and upward vertical movement end (on convergence or at the
iteration cap) with the axis velocity zeroed and a returned position at
which the contact query reports no collision on that axis.  The leftward
search, tracking the other end of its bracket, can instead return the
blocked target itself, and the downward search returns the first contact
position found by its forward scan rather than a clear position. -/
theorem binary_search_clear_side (p : Player) (lv : Level) :
    (∀ startX y deltaX, 0 < deltaX →
      (lv.CheckCollision startX y p.Width p.Height).CollisionX = false →
      (lv.CheckCollision ((p.binarySearchCollisionX lv startX y deltaX).1) y
        p.Width p.Height).CollisionX = false ∧
      ((p.binarySearchCollisionX lv startX y deltaX).2).VelocityX = 0) ∧
    (∀ x startY deltaY, deltaY < 0 →
      (lv.CheckCollision x startY p.Width p.Height).CollisionY = false →
      (lv.CheckCollision x ((p.binarySearchCollisionY lv x startY deltaY).1)
        p.Width p.Height).CollisionY = false ∧
      ((p.binarySearchCollisionY lv x startY deltaY).2).VelocityY = 0) := by
  constructor
  · intro startX y deltaX hdx hclear
    unfold Player.binarySearchCollisionX
    rw [if_pos hdx]
    exact ⟨bsXPosLoop_clear lv y p.Width p.Height _ startX _ hclear, rfl⟩
  · intro x startY deltaY hdy hclear
    unfold Player.binarySearchCollisionY
    rw [if_neg (by linarith : ¬deltaY > 0)]
    exact ⟨bsYUpLoop_clear lv x p.Width p.Height _ _ startY hclear, rfl⟩

/-- Witness for C3 (amended): on the extreme-speed test level, a rightward
move from clear X = 20 into the wall at X = 64, and an upward move from
clear Y = 200 into the tile bottom at Y = 192, both return clear positions
with the axis velocity zeroed. -/
theorem binary_search_clear_side_witness :
    ((extremeLevel.CheckCollision (((NewPlayer 0 0).binarySearchCollisionX extremeLevel
        20 160 20).1) 160 32 32).CollisionX = false ∧
      (((NewPlayer 0 0).binarySearchCollisionX extremeLevel 20 160 20).2).VelocityX = 0) ∧
    ((extremeLevel.CheckCollision 64 (((NewPlayer 0 0).binarySearchCollisionY extremeLevel
        64 200 (-20)).1) 32 32).CollisionY = false ∧
      (((NewPlayer 0 0).binarySearchCollisionY extremeLevel 64 200 (-20)).2).VelocityY = 0) := by
  have h := binary_search_clear_side (NewPlayer 0 0) extremeLevel
  exact ⟨h.1 20 160 20 (by norm_num) (by decide), h.2 64 200 (-20) (by norm_num) (by decide)⟩

theorem takeDamage_onGround (q : Player) : q.TakeDamage.OnGround = q.OnGround := by
  unfold Player.TakeDamage
  split <;> rfl

/-- C8: in a tick whose post-movement contact query reports neither ground
nor a vertical collision, the player ends the physics update with
on-ground = true exactly when the player entered the tick on ground and the
velocities at the hysteresis check (those of the moved player) satisfy
|VelocityY| < 0.5 and |VelocityX| < 5; in particular an entity walking off
a ledge with |VelocityX| ≥ 5 is immediately marked not-on-ground. -/
theorem ground_hysteresis (p : Player) (lv : Level) (dt : ℚ)
    (hlv : p.level = some lv)
    (hng : ((p.moveAndQuery dt lv).2).OnGround = false)
    (hnc : ((p.moveAndQuery dt lv).2).CollisionY = false) :
    ((p.updatePhysics dt).OnGround = true ↔
      (p.OnGround = true ∧ |((p.moveAndQuery dt lv).1).VelocityY| < 1/2 ∧
       |((p.moveAndQuery dt lv).1).VelocityX| < 5)) := by
  unfold Player.updatePhysics
  dsimp only
  split
  · rename_i heq
    rw [hlv] at heq
    cases heq
  · rename_i lv' heq
    rw [hlv] at heq
    injection heq with heq'
    subst heq'
    have h6 : ¬((p.moveAndQuery dt lv).2.OnGround = true ∧
        ¬(p.moveAndQuery dt lv).1.OnGround = true) := by
      rw [hng]
      simp
    rw [if_neg h6]
    have h7 : (¬(p.moveAndQuery dt lv).2.OnGround = true ∧
        ¬(p.moveAndQuery dt lv).2.CollisionY = true) := by
      rw [hng, hnc]
      simp
    rw [if_pos h7]
    by_cases hcond : (p.OnGround = true ∧ |((p.moveAndQuery dt lv).1).VelocityY| < 1/2 ∧
        |((p.moveAndQuery dt lv).1).VelocityX| < 5)
    · rw [if_pos hcond]
      split
      · rw [takeDamage_onGround]
        exact iff_of_true rfl hcond
      · exact iff_of_true rfl hcond
    · rw [if_neg hcond]
      split
      · rw [takeDamage_onGround]
        exact iff_of_false (by simp) hcond
      · exact iff_of_false (by simp) hcond

/-- Witness for C8: a stationary player resting in empty space of the test
level (post-movement query reports nothing) keeps on-ground by hysteresis. -/
theorem ground_hysteresis_witness :
    (({ (NewPlayer 200 100).SetLevel oneWayLevel with OnGround := true }).updatePhysics 0).OnGround
      = true := by
  have h := ground_hysteresis { (NewPlayer 200 100).SetLevel oneWayLevel with OnGround := true }
    oneWayLevel 0 rfl (by decide) (by decide)
  exact h.mpr ⟨rfl, by decide, by decide⟩

theorem bsX_coyoteTimer (p : Player) (lv : Level) (sx y dx : ℚ) :
    ((p.binarySearchCollisionX lv sx y dx).2).CoyoteTimer = p.CoyoteTimer := by
  unfold Player.binarySearchCollisionX
  dsimp only
  split <;> rfl

theorem bsX_coyoteTime (p : Player) (lv : Level) (sx y dx : ℚ) :
    ((p.binarySearchCollisionX lv sx y dx).2).CoyoteTime = p.CoyoteTime := by
  unfold Player.binarySearchCollisionX
  dsimp only
  split <;> rfl

theorem bsY_coyoteTimer (p : Player) (lv : Level) (x sy dy : ℚ) :
    ((p.binarySearchCollisionY lv x sy dy).2).CoyoteTimer = p.CoyoteTimer := by
  unfold Player.binarySearchCollisionY
  dsimp only
  split
  · split
    · split <;> rfl
    · rfl
  · rfl

theorem bsY_coyoteTime (p : Player) (lv : Level) (x sy dy : ℚ) :
    ((p.binarySearchCollisionY lv x sy dy).2).CoyoteTime = p.CoyoteTime := by
  unfold Player.binarySearchCollisionY
  dsimp only
  split
  · split
    · split <;> rfl
    · rfl
  · rfl

theorem sweptH_coyoteTimer (p : Player) (lv : Level) (sx y dx : ℚ) :
    ((p.sweptHorizontalMovement lv sx y dx).2).CoyoteTimer = p.CoyoteTimer := by
  unfold Player.sweptHorizontalMovement
  dsimp only
  split
  · rfl
  · exact bsX_coyoteTimer p lv sx y dx

theorem sweptH_coyoteTime (p : Player) (lv : Level) (sx y dx : ℚ) :
    ((p.sweptHorizontalMovement lv sx y dx).2).CoyoteTime = p.CoyoteTime := by
  unfold Player.sweptHorizontalMovement
  dsimp only
  split
  · rfl
  · exact bsX_coyoteTime p lv sx y dx

theorem sweptV_coyoteTimer (p : Player) (lv : Level) (x sy dy : ℚ) :
    ((p.sweptVerticalMovement lv x sy dy).2).CoyoteTimer = p.CoyoteTimer := by
  unfold Player.sweptVerticalMovement
  dsimp only
  split
  · rfl
  · exact bsY_coyoteTimer p lv x sy dy

theorem sweptV_coyoteTime (p : Player) (lv : Level) (x sy dy : ℚ) :
    ((p.sweptVerticalMovement lv x sy dy).2).CoyoteTime = p.CoyoteTime := by
  unfold Player.sweptVerticalMovement
  dsimp only
  split
  · rfl
  · exact bsY_coyoteTime p lv x sy dy

theorem psm_coyoteTimer (p : Player) (sx sy dx dy : ℚ) :
    ((p.performSweptMovement sx sy dx dy).2.2).CoyoteTimer = p.CoyoteTimer := by
  unfold Player.performSweptMovement
  dsimp only
  split
  · rfl
  · rename_i lv _
    split <;> split <;>
      simp only [sweptV_coyoteTimer, sweptH_coyoteTimer]

theorem psm_coyoteTime (p : Player) (sx sy dx dy : ℚ) :
    ((p.performSweptMovement sx sy dx dy).2.2).CoyoteTime = p.CoyoteTime := by
  unfold Player.performSweptMovement
  dsimp only
  split
  · rfl
  · rename_i lv _
    split <;> split <;>
      simp only [sweptV_coyoteTime, sweptH_coyoteTime]

theorem takeDamage_coyoteTimer (p : Player) :
    p.TakeDamage.CoyoteTimer = p.CoyoteTimer := by
  unfold Player.TakeDamage
  split <;> rfl

theorem takeDamage_coyoteTime (p : Player) :
    p.TakeDamage.CoyoteTime = p.CoyoteTime := by
  unfold Player.TakeDamage
  split <;> rfl

theorem maq_coyoteTimer (p : Player) (dt : ℚ) (lv : Level) :
    ((p.moveAndQuery dt lv).1).CoyoteTimer = p.CoyoteTimer := by
  unfold Player.moveAndQuery Player.integrateForces
  dsimp only
  rw [psm_coyoteTimer]
  split <;> rfl

theorem maq_coyoteTime (p : Player) (dt : ℚ) (lv : Level) :
    ((p.moveAndQuery dt lv).1).CoyoteTime = p.CoyoteTime := by
  unfold Player.moveAndQuery Player.integrateForces
  dsimp only
  rw [psm_coyoteTime]
  split <;> rfl

theorem physics_coyoteTimer (p : Player) (dt : ℚ) :
    (p.updatePhysics dt).CoyoteTimer = p.CoyoteTimer := by
  unfold Player.updatePhysics
  dsimp only
  split
  · unfold Player.updateSimplePhysics Player.integrateForces
    dsimp only
    split <;> split <;> rfl
  · repeat' split
    all_goals simp only [takeDamage_coyoteTimer, maq_coyoteTimer]

theorem physics_coyoteTime (p : Player) (dt : ℚ) :
    (p.updatePhysics dt).CoyoteTime = p.CoyoteTime := by
  unfold Player.updatePhysics
  dsimp only
  split
  · unfold Player.updateSimplePhysics Player.integrateForces
    dsimp only
    split <;> split <;> rfl
  · repeat' split
    all_goals simp only [takeDamage_coyoteTime, maq_coyoteTime]

theorem coyoteInv_updateCoyoteTime (p : Player) (dt : ℚ) (hdt : 0 ≤ dt)
    (h : coyoteInv p) : coyoteInv (p.updateCoyoteTime dt) := by
  obtain ⟨h0, h1⟩ := h
  unfold Player.updateCoyoteTime coyoteInv
  dsimp only
  repeat' split
  all_goals constructor
  all_goals dsimp only
  all_goals linarith

/-- C10: starting from NewPlayer (CoyoteTimer = 0, CoyoteTime = 0.1), the
coyote timer satisfies 0 ≤ CoyoteTimer ≤ CoyoteTime, and the bound is
preserved by Update with any non-negative deltaTime and by every movement
command. -/
theorem coyote_timer_invariant :
    (∀ x y : ℚ, (NewPlayer x y).CoyoteTimer = 0 ∧ (NewPlayer x y).CoyoteTime = 1/10 ∧
      coyoteInv (NewPlayer x y)) ∧
    (∀ (p : Player) (dt : ℚ), 0 ≤ dt → coyoteInv p →
      coyoteInv (p.Update dt) ∧ coyoteInv p.MoveLeft ∧ coyoteInv p.MoveRight ∧
      coyoteInv p.Jump ∧ coyoteInv p.StartClimbing ∧ coyoteInv p.StopClimbing ∧
      coyoteInv p.ClimbUp ∧ coyoteInv p.ClimbDown ∧ coyoteInv p.TakeDamage) := by
  constructor
  · intro x y
    refine ⟨rfl, rfl, le_refl 0, ?_⟩
    norm_num [NewPlayer]
  · intro p dt hdt hp
    obtain ⟨h0, h1⟩ := hp
    have hle : (0:ℚ) ≤ p.CoyoteTime := le_trans h0 h1
    refine ⟨?_, ?_, ?_, ?_, ?_, ?_, ?_, ?_, ?_⟩
    · unfold Player.Update
      dsimp only
      apply coyoteInv_updateCoyoteTime _ _ hdt
      constructor
      · rw [physics_coyoteTimer]
        split
        · split
          · exact h0
          · exact h0
        · exact h0
      · rw [physics_coyoteTimer, physics_coyoteTime]
        split
        · split
          · exact h1
          · exact h1
        · exact h1
    · unfold Player.MoveLeft
      split
      · exact ⟨h0, h1⟩
      · exact ⟨h0, h1⟩
    · unfold Player.MoveRight
      split
      · exact ⟨h0, h1⟩
      · exact ⟨h0, h1⟩
    · unfold Player.Jump
      split
      · exact ⟨le_refl 0, hle⟩
      · exact ⟨h0, h1⟩
    · unfold Player.StartClimbing
      split
      · exact ⟨h0, h1⟩
      · exact ⟨h0, h1⟩
    · exact ⟨h0, h1⟩
    · unfold Player.ClimbUp
      split
      · exact ⟨h0, h1⟩
      · exact ⟨h0, h1⟩
    · unfold Player.ClimbDown
      split
      · exact ⟨h0, h1⟩
      · exact ⟨h0, h1⟩
    · unfold Player.TakeDamage
      split
      · exact ⟨h0, h1⟩
      · exact ⟨h0, h1⟩

/-- Witness for C10: one Update tick of the fresh player on the one-way test
level keeps the timer inside [0, CoyoteTime]. -/
theorem coyote_timer_invariant_witness :
    coyoteInv (((NewPlayer 0 0).SetLevel oneWayLevel).Update (1/60)) ∧
    coyoteInv ((NewPlayer 0 0).Jump) := by
  have h := (coyote_timer_invariant.2 ((NewPlayer 0 0).SetLevel oneWayLevel) (1/60)
    (by norm_num) ⟨by norm_num [Player.SetLevel, NewPlayer], by norm_num [Player.SetLevel, NewPlayer]⟩)
  have h2 := (coyote_timer_invariant.2 (NewPlayer 0 0) 0
    (le_refl 0) ⟨by norm_num [NewPlayer], by norm_num [NewPlayer]⟩)
  exact ⟨h.1, h2.2.2.2.1⟩

/-- C5: Jump changes the player state exactly when (OnGround or
CoyoteTimer > 0) and not IsDamaged; on success VelocityY becomes -JumpSpeed
(negative whenever JumpSpeed is positive), IsJumping becomes true,
CoyoteTimer is consumed to 0 and OnGround cleared — and the consumed timer
stays 0 through the following updateCoyoteTime, so the jump-induced
departure from ground does not re-arm the leniency window; on failure the
state is completely unchanged. -/
theorem jump_spec (p : Player) :
    (p.Jump ≠ p ↔ ((p.OnGround ∨ p.CoyoteTimer > 0) ∧ ¬p.IsDamaged)) ∧
    (((p.OnGround ∨ p.CoyoteTimer > 0) ∧ ¬p.IsDamaged) →
      p.Jump.VelocityY = -p.JumpSpeed ∧ p.Jump.IsJumping = true ∧
      p.Jump.CoyoteTimer = 0 ∧ p.Jump.OnGround = false ∧
      (0 < p.JumpSpeed → p.Jump.VelocityY < 0) ∧
      (∀ dt : ℚ, (p.Jump.updateCoyoteTime dt).CoyoteTimer = 0)) ∧
    (¬((p.OnGround ∨ p.CoyoteTimer > 0) ∧ ¬p.IsDamaged) → p.Jump = p) := by
  by_cases hc : ((p.OnGround ∨ p.CoyoteTimer > 0) ∧ ¬p.IsDamaged)
  · have hq : p.Jump = { p with VelocityY := -p.JumpSpeed, IsJumping := true, OnGround := false, CoyoteTimer := 0 } := by
      unfold Player.Jump
      rw [if_pos hc]
    refine ⟨⟨fun _ => hc, fun _ hEq => ?_⟩, fun _ => ⟨by rw [hq], by rw [hq], by rw [hq],
      by rw [hq], fun hjs => by rw [hq]; simpa using hjs, fun dt => ?_⟩,
      fun hn => absurd hc hn⟩
    · rcases hc with ⟨hg | ht, _⟩
      · have hO := congrArg Player.OnGround hEq
        rw [hq] at hO
        simp only at hO
        rw [← hO] at hg
        exact Bool.false_ne_true hg
      · have hT := congrArg Player.CoyoteTimer hEq
        rw [hq] at hT
        simp only at hT
        rw [← hT] at ht
        exact lt_irrefl 0 ht
    · rw [hq]
      unfold Player.updateCoyoteTime
      simp
  · have hq : p.Jump = p := by
      unfold Player.Jump
      rw [if_neg hc]
    exact ⟨⟨fun hne => absurd hq hne, fun h => absurd h hc⟩,
      fun h => absurd h hc, fun _ => hq⟩

theorem overlapStepSt_eq (l : Level) (eX eY eW eH : ℚ) (r : CollisionResult) (tx ty : Int) :
    Level.overlapStepSt eX eY eW eH (r, l) tx ty = (l.overlapStep eX eY eW eH r tx ty, l) := by
  unfold Level.overlapStepSt Level.overlapStep Level.GetTileSt
  dsimp only
  split
  · rfl
  · split
    · rfl
    · rfl

theorem foldl_pair_second {α : Type} {stepSt : CollisionResult × Level → α → CollisionResult × Level}
    {step : CollisionResult → α → CollisionResult} {l : Level} {L : List α}
    (h : ∀ r a, stepSt (r, l) a = (step r a, l)) :
    ∀ r, L.foldl stepSt (r, l) = (L.foldl step r, l) := by
  induction L with
  | nil => intro r; rfl
  | cons x xs ih =>
      intro r
      rw [List.foldl_cons, List.foldl_cons, h r x]
      exact ih (step r x)

/-- C9: CheckCollision is a pure function of the box and the grid: the
state-passing rendering of the method returns the grid unchanged and the
very same result as the direct function, and the result is determined by
the grid's Width/Height/TileSize/Tiles alone — two levels that agree on
those fields (whatever their names) produce identical ContactResult values
in every field. -/
theorem checkCollision_pure (l : Level) (eX eY eW eH : ℚ) :
    (l.CheckCollisionSt eX eY eW eH).2 = l ∧
    (l.CheckCollisionSt eX eY eW eH).1 = l.CheckCollision eX eY eW eH ∧
    (∀ l' : Level, l.Width = l'.Width → l.Height = l'.Height →
      l.TileSize = l'.TileSize → l.Tiles = l'.Tiles →
      l.CheckCollision eX eY eW eH = l'.CheckCollision eX eY eW eH) := by
  have hrow : ∀ (tileY : Int) (r : CollisionResult),
      (intRange ⌊eX / ((l.TileSize : Int) : ℚ)⌋ ⌊(eX + eW - 1) / ((l.TileSize : Int) : ℚ)⌋).foldl
        (fun acc tileX => Level.overlapStepSt eX eY eW eH acc tileX tileY) (r, l) =
      ((intRange ⌊eX / ((l.TileSize : Int) : ℚ)⌋ ⌊(eX + eW - 1) / ((l.TileSize : Int) : ℚ)⌋).foldl
        (fun acc tileX => l.overlapStep eX eY eW eH acc tileX tileY) r, l) := by
    intro tileY r
    exact foldl_pair_second (fun r a => overlapStepSt_eq l eX eY eW eH r a tileY) r
  have hmain :
      ∀ (rows : List Int) (r : CollisionResult),
        rows.foldl (fun acc tileY =>
          (intRange ⌊eX / ((l.TileSize : Int) : ℚ)⌋
            ⌊(eX + eW - 1) / ((l.TileSize : Int) : ℚ)⌋).foldl
            (fun acc tileX => Level.overlapStepSt eX eY eW eH acc tileX tileY) acc) (r, l) =
        (rows.foldl (fun acc tileY =>
          (intRange ⌊eX / ((l.TileSize : Int) : ℚ)⌋
            ⌊(eX + eW - 1) / ((l.TileSize : Int) : ℚ)⌋).foldl
            (fun acc tileX => l.overlapStep eX eY eW eH acc tileX tileY) acc) r, l) := by
    intro rows
    exact foldl_pair_second (fun r a => hrow a r)
  have hginv : ∀ (r : CollisionResult),
      (intRange ⌊eX / ((l.TileSize : Int) : ℚ)⌋ ⌊(eX + eW - 1) / ((l.TileSize : Int) : ℚ)⌋).foldl
        (Level.groundStepSt eX eY eW eH ⌊(eY + eH) / ((l.TileSize : Int) : ℚ)⌋) (r, l) =
      ((intRange ⌊eX / ((l.TileSize : Int) : ℚ)⌋ ⌊(eX + eW - 1) / ((l.TileSize : Int) : ℚ)⌋).foldl
        (l.groundStep eX eY eW eH ⌊(eY + eH) / ((l.TileSize : Int) : ℚ)⌋) r, l) := by
    intro r
    exact foldl_pair_second (fun r a => rfl) r
  refine ⟨?_, ?_, ?_⟩
  · unfold Level.CheckCollisionSt
    simp only [hmain, hginv]
    split <;> rfl
  · unfold Level.CheckCollisionSt Level.CheckCollision
    simp only [hmain, hginv]
    split <;> rfl
  · intro l' h1 h2 h3 h4
    obtain ⟨w, h, ts, tiles, name⟩ := l
    obtain ⟨w', h', ts', tiles', name'⟩ := l'
    simp only at h1 h2 h3 h4
    subst h1
    subst h2
    subst h3
    subst h4
    rfl

/-- Witness for C9: two copies of the 3 × 3 grid differing only in their
Name field give identical results for a concrete query. -/
theorem checkCollision_pure_witness :
    ((NewLevel 3 3 32 "a").SetTile 1 1 TileSolid).CheckCollision 32 30 32 32 =
      ((NewLevel 3 3 32 "b").SetTile 1 1 TileSolid).CheckCollision 32 30 32 32 ∧
    (((NewLevel 3 3 32 "a").SetTile 1 1 TileSolid).CheckCollisionSt 32 30 32 32).2 =
      (NewLevel 3 3 32 "a").SetTile 1 1 TileSolid := by
  constructor
  · exact (checkCollision_pure ((NewLevel 3 3 32 "a").SetTile 1 1 TileSolid) 32 30 32 32).2.2
      ((NewLevel 3 3 32 "b").SetTile 1 1 TileSolid) (by decide) (by decide) (by decide) (by decide)
  · exact (checkCollision_pure ((NewLevel 3 3 32 "a").SetTile 1 1 TileSolid) 32 30 32 32).1

/-- Witness for C5: a freshly grounded player jumps, ending with negative
vertical velocity and a consumed (zero) coyote timer. -/
theorem jump_spec_witness :
    ({ NewPlayer 0 0 with OnGround := true }.Jump.VelocityY = -200 ∧
     { NewPlayer 0 0 with OnGround := true }.Jump.CoyoteTimer = 0 ∧
     { NewPlayer 0 0 with OnGround := true }.Jump ≠ { NewPlayer 0 0 with OnGround := true }) := by
  have h := jump_spec { NewPlayer 0 0 with OnGround := true }
  have hcond : (({ NewPlayer 0 0 with OnGround := true } : Player).OnGround ∨
      ({ NewPlayer 0 0 with OnGround := true } : Player).CoyoteTimer > 0) ∧
      ¬({ NewPlayer 0 0 with OnGround := true } : Player).IsDamaged := by
    refine ⟨Or.inl (by decide), by decide⟩
  have h2 := h.2.1 hcond
  refine ⟨?_, h2.2.2.1, h.1.mpr hcond⟩
  rw [h2.1]
  decide

end Platformer

namespace Platformer

theorem overlapStep_of_empty (l : Level) (eX eY eW eH : ℚ) (r : CollisionResult) (tx ty : Int)
    (h : (l.GetTile tx ty).type = TileEmpty) :
    l.overlapStep eX eY eW eH r tx ty = r := by
  unfold Level.overlapStep
  rw [if_pos h]

theorem groundStep_of_empty (l : Level) (eX eY eW eH : ℚ) (r : CollisionResult) (tx bt : Int)
    (h : (l.GetTile tx bt).type = TileEmpty) :
    l.groundStep eX eY eW eH bt r tx = r := by
  unfold Level.groundStep
  rw [if_pos h]

theorem extremeLevel_col2_empty (ty : Int) (h : ty ≠ 5) :
    (extremeLevel.GetTile 2 ty).type = TileEmpty := by
  by_cases h0 : 0 ≤ ty ∧ ty < 10
  · obtain ⟨h1, h2⟩ := h0
    interval_cases ty
    · decide
    · decide
    · decide
    · decide
    · decide
    · exact absurd rfl h
    · decide
    · decide
    · decide
    · decide
  · have hW : extremeLevel.Width = 10 := by decide
    have hH : extremeLevel.Height = 10 := by decide
    have hv : extremeLevel.IsValidCoord 2 ty = false := by
      unfold Level.IsValidCoord
      rw [hW, hH]
      by_cases hty : 0 ≤ ty
      · have h10 : ¬ty < 10 := by omega
        simp [h10]
      · simp [hty]
    unfold Level.GetTile
    rw [hv]
    rfl

theorem extremeLevel_proc_band (y : ℚ) (r : CollisionResult) (h1 : 128 ≤ y) (h2 : y ≤ 130) :
    extremeLevel.processCollision r (NewTile TileSolid 2 5) 64 y 32 32 ⟨64, 160, 32, 32⟩ =
      { r with Collided := true, OnGround := true } := by
  unfold Level.processCollision Level.getOverlapX Level.getOverlapY GroundTolerance
  dsimp only
  have hog : (decide ((y + 32) ≥ (160:ℚ)) && decide ((y + 32) ≤ 160 + 2)) = true := by
    rw [Bool.and_eq_true, decide_eq_true_eq, decide_eq_true_eq]
    constructor <;> linarith
  rw [hog]
  have hS : (NewTile TileSolid 2 5).IsSolid = true := by decide
  have hO : (NewTile TileSolid 2 5).IsOneWay = false := by decide
  have hC : (NewTile TileSolid 2 5).IsClimbable = false := by decide
  have hD : (NewTile TileSolid 2 5).IsDangerous = false := by decide
  simp only [hS, hO, hC, hD, if_true, Bool.false_eq_true, if_false, ite_true, ite_false]
  norm_num

theorem extremeLevel_proc_mid (y : ℚ) (r : CollisionResult) (h1 : 130 < y) (h2 : y < 160) :
    extremeLevel.processCollision r (NewTile TileSolid 2 5) 64 y 32 32 ⟨64, 160, 32, 32⟩ =
      { r with Collided := true, CollisionY := true, PenetrationY := y - 128 } := by
  unfold Level.processCollision Level.getOverlapX Level.getOverlapY GroundTolerance
  dsimp only
  have hog : (decide ((y + 32) ≥ (160:ℚ)) && decide ((y + 32) ≤ 160 + 2)) = false := by
    rw [Bool.and_eq_false_iff]
    right
    rw [decide_eq_false_iff_not]
    linarith
  rw [hog]
  have hS : (NewTile TileSolid 2 5).IsSolid = true := by decide
  have hO : (NewTile TileSolid 2 5).IsOneWay = false := by decide
  have hC : (NewTile TileSolid 2 5).IsClimbable = false := by decide
  have hD : (NewTile TileSolid 2 5).IsDangerous = false := by decide
  have hOvY : min (y + 32) (160 + 32) - max y 160 = y - 128 := by
    rw [min_eq_left (by linarith), max_eq_right (by linarith)]
    ring
  have hWall : (decide ((min ((64:ℚ) + 32) (64 + 32) - max 64 64) > 2) &&
      (decide ((min ((64:ℚ) + 32) (64 + 32) - max 64 64) < (min (y + 32) (160 + 32) - max y 160)) ||
       decide ((min (y + 32) (160 + 32) - max y 160) < 2))) = false := by
    rw [hOvY]
    rw [Bool.and_eq_false_iff]
    right
    rw [Bool.or_eq_false_iff]
    constructor
    · rw [decide_eq_false_iff_not]
      norm_num
      linarith
    · rw [decide_eq_false_iff_not]
      linarith
  have hVert : (decide ((min (y + 32) (160 + 32) - max y 160) > 2) &&
      (decide ((min (y + 32) (160 + 32) - max y 160) < (min ((64:ℚ) + 32) (64 + 32) - max 64 64)) ||
       decide ((min ((64:ℚ) + 32) (64 + 32) - max 64 64) < 2))) = true := by
    rw [hOvY]
    rw [Bool.and_eq_true]
    constructor
    · rw [decide_eq_true_eq]
      linarith
    · rw [Bool.or_eq_true]
      left
      rw [decide_eq_true_eq]
      norm_num
      linarith
  rw [hWall, hVert]
  simp only [hS, hO, hC, hD, if_true, Bool.false_eq_true, if_false, ite_true, ite_false]
  rw [hOvY]

end Platformer

namespace Platformer

theorem extremeLevel_ground_band (y : ℚ) (r : CollisionResult) (h1 : 128 ≤ y) (h2 : y < 129) :
    extremeLevel.groundStep 64 y 32 32 5 r 2 = { r with Collided := true, OnGround := true } := by
  unfold Level.groundStep
  rw [show extremeLevel.GetTile 2 5 = NewTile TileSolid 2 5 from by decide]
  rw [if_neg (by decide : ¬(NewTile TileSolid 2 5).type = TileEmpty)]
  rw [show extremeLevel.getTileBounds 2 5 = ⟨64, 160, 32, 32⟩ from by decide]
  dsimp only
  have hc : (decide ((y + 32) ≥ (160:ℚ)) && decide ((y + 32) ≤ 160 + GroundTolerance) &&
      decide ((64:ℚ) < 64 + 32) && decide ((64:ℚ) + 32 > 64)) = true := by
    unfold GroundTolerance
    simp only [Bool.and_eq_true, decide_eq_true_eq]
    refine ⟨⟨⟨by linarith, by linarith⟩, by norm_num⟩, by norm_num⟩
  rw [hc]
  simp only [if_true, ite_true]
  rw [if_pos (by decide : ((NewTile TileSolid 2 5).IsSolid || (NewTile TileSolid 2 5).IsOneWay) = true)]
  rw [if_neg (by decide : ¬(NewTile TileSolid 2 5).IsOneWay = true)]
  rw [if_neg (by decide : ¬(NewTile TileSolid 2 5).IsClimbable = true)]
  rw [if_neg (by decide : ¬(NewTile TileSolid 2 5).IsDangerous = true)]

end Platformer

namespace Platformer

theorem extremeLevel_cc_low (y : ℚ) (hy : y < 128) :
    extremeLevel.CheckCollision 64 y 32 32 = emptyResult := by
  unfold Level.CheckCollision
  dsimp only
  rw [show ((extremeLevel.TileSize : Int) : ℚ) = 32 from by decide]
  rw [show ⌊(64:ℚ)/32⌋ = (2:ℤ) from by decide]
  rw [show ⌊((64:ℚ) + 32 - 1)/32⌋ = (2:ℤ) from by decide]
  rw [show intRange 2 2 = [2] from by decide]
  have hbot : ⌊((y + 32 - 1))/(32:ℚ)⌋ < 5 :=
    Int.floor_lt.mpr (by rw [div_lt_iff₀ (by norm_num : (0:ℚ) < 32)]; push_cast; linarith)
  have hbelow : ⌊((y + 32))/(32:ℚ)⌋ < 5 :=
    Int.floor_lt.mpr (by rw [div_lt_iff₀ (by norm_num : (0:ℚ) < 32)]; push_cast; linarith)
  have hmain : (intRange ⌊y/(32:ℚ)⌋ ⌊(y + 32 - 1)/(32:ℚ)⌋).foldl
      (fun result tileY => [(2:ℤ)].foldl
        (fun result tileX => extremeLevel.overlapStep 64 y 32 32 result tileX tileY) result)
      emptyResult = emptyResult := by
    apply foldl_congr_id
    intro r ty hty
    have h5 : ty ≠ 5 := by
      have := (mem_intRange.mp hty).2
      omega
    simp only [List.foldl_cons, List.foldl_nil]
    exact overlapStep_of_empty extremeLevel 64 y 32 32 r 2 ty (extremeLevel_col2_empty ty h5)
  rw [hmain]
  split
  · simp only [List.foldl_cons, List.foldl_nil]
    apply groundStep_of_empty
    apply extremeLevel_col2_empty
    omega
  · rfl

end Platformer

namespace Platformer

theorem extremeLevel_step5 (y : ℚ) (r : CollisionResult) (h1 : 129 ≤ y) (h2 : y < 160) :
    extremeLevel.overlapStep 64 y 32 32 r 2 5 =
      extremeLevel.processCollision r (NewTile TileSolid 2 5) 64 y 32 32 ⟨64, 160, 32, 32⟩ := by
  unfold Level.overlapStep
  rw [show extremeLevel.GetTile 2 5 = NewTile TileSolid 2 5 from by decide]
  rw [if_neg (by decide : ¬(NewTile TileSolid 2 5).type = TileEmpty)]
  rw [show extremeLevel.getTileBounds 2 5 = ⟨64, 160, 32, 32⟩ from by decide]
  dsimp only
  rw [if_pos]
  unfold Level.rectanglesOverlap
  simp only [Bool.and_eq_true, decide_eq_true_eq]
  refine ⟨⟨⟨by norm_num, by norm_num⟩, by linarith⟩, by linarith⟩

theorem extremeLevel_cc_band1 (y : ℚ) (h1 : 128 ≤ y) (h2 : y < 129) :
    extremeLevel.CheckCollision 64 y 32 32 =
      { emptyResult with Collided := true, OnGround := true } := by
  unfold Level.CheckCollision
  dsimp only
  rw [show ((extremeLevel.TileSize : Int) : ℚ) = 32 from by decide]
  rw [show ⌊(64:ℚ)/32⌋ = (2:ℤ) from by decide]
  rw [show ⌊((64:ℚ) + 32 - 1)/32⌋ = (2:ℤ) from by decide]
  rw [show intRange 2 2 = [2] from by decide]
  have htop : ⌊y/(32:ℚ)⌋ = (4:ℤ) := by
    rw [Int.floor_eq_iff]
    push_cast
    constructor
    · rw [le_div_iff₀ (by norm_num : (0:ℚ) < 32)]
      linarith
    · rw [div_lt_iff₀ (by norm_num : (0:ℚ) < 32)]
      linarith
  have hbot : ⌊(y + 32 - 1)/(32:ℚ)⌋ = (4:ℤ) := by
    rw [Int.floor_eq_iff]
    push_cast
    constructor
    · rw [le_div_iff₀ (by norm_num : (0:ℚ) < 32)]
      linarith
    · rw [div_lt_iff₀ (by norm_num : (0:ℚ) < 32)]
      linarith
  have hbelow : ⌊(y + 32)/(32:ℚ)⌋ = (5:ℤ) := by
    rw [Int.floor_eq_iff]
    push_cast
    constructor
    · rw [le_div_iff₀ (by norm_num : (0:ℚ) < 32)]
      linarith
    · rw [div_lt_iff₀ (by norm_num : (0:ℚ) < 32)]
      linarith
  rw [htop, hbot, hbelow]
  rw [show intRange 4 4 = [4] from by decide]
  simp only [List.foldl_cons, List.foldl_nil]
  rw [overlapStep_of_empty extremeLevel 64 y 32 32 emptyResult 2 4
    (extremeLevel_col2_empty 4 (by omega))]
  rw [if_pos (by omega : (5:ℤ) > 4)]
  exact extremeLevel_ground_band y emptyResult h1 h2

end Platformer

namespace Platformer

theorem floor32_eq (a : ℚ) (k : ℤ) (h1 : (k:ℚ) * 32 ≤ a) (h2 : a < (k:ℚ) * 32 + 32) :
    ⌊a/(32:ℚ)⌋ = k := by
  rw [Int.floor_eq_iff]
  constructor
  · rw [le_div_iff₀ (by norm_num : (0:ℚ) < 32)]
    linarith
  · rw [div_lt_iff₀ (by norm_num : (0:ℚ) < 32)]
    linarith

theorem extremeLevel_cc_band2 (y : ℚ) (h1 : 129 ≤ y) (h2 : y ≤ 130) :
    extremeLevel.CheckCollision 64 y 32 32 =
      { emptyResult with Collided := true, OnGround := true } := by
  unfold Level.CheckCollision
  dsimp only
  rw [show ((extremeLevel.TileSize : Int) : ℚ) = 32 from by decide]
  rw [show ⌊(64:ℚ)/32⌋ = (2:ℤ) from by decide]
  rw [show ⌊((64:ℚ) + 32 - 1)/32⌋ = (2:ℤ) from by decide]
  rw [show intRange 2 2 = [2] from by decide]
  rw [floor32_eq y 4 (by push_cast; linarith) (by push_cast; linarith)]
  rw [floor32_eq (y + 32 - 1) 5 (by push_cast; linarith) (by push_cast; linarith)]
  rw [floor32_eq (y + 32) 5 (by push_cast; linarith) (by push_cast; linarith)]
  rw [show intRange 4 5 = [4, 5] from by decide]
  simp only [List.foldl_cons, List.foldl_nil]
  rw [overlapStep_of_empty extremeLevel 64 y 32 32 emptyResult 2 4
    (extremeLevel_col2_empty 4 (by omega))]
  rw [extremeLevel_step5 y emptyResult h1 (by linarith)]
  rw [extremeLevel_proc_band y emptyResult (by linarith) h2]
  rw [if_neg (by omega : ¬(5:ℤ) > 5)]

theorem extremeLevel_cc_mid (y : ℚ) (h1 : 130 < y) (h2 : y < 160) :
    extremeLevel.CheckCollision 64 y 32 32 =
      { emptyResult with Collided := true, CollisionY := true, PenetrationY := y - 128 } := by
  unfold Level.CheckCollision
  dsimp only
  rw [show ((extremeLevel.TileSize : Int) : ℚ) = 32 from by decide]
  rw [show ⌊(64:ℚ)/32⌋ = (2:ℤ) from by decide]
  rw [show ⌊((64:ℚ) + 32 - 1)/32⌋ = (2:ℤ) from by decide]
  rw [show intRange 2 2 = [2] from by decide]
  rw [floor32_eq y 4 (by push_cast; linarith) (by push_cast; linarith)]
  rw [floor32_eq (y + 32 - 1) 5 (by push_cast; linarith) (by push_cast; linarith)]
  rw [floor32_eq (y + 32) 5 (by push_cast; linarith) (by push_cast; linarith)]
  rw [show intRange 4 5 = [4, 5] from by decide]
  simp only [List.foldl_cons, List.foldl_nil]
  rw [overlapStep_of_empty extremeLevel 64 y 32 32 emptyResult 2 4
    (extremeLevel_col2_empty 4 (by omega))]
  rw [extremeLevel_step5 y emptyResult (by linarith) h2]
  rw [extremeLevel_proc_mid y emptyResult h1 h2]
  rw [if_neg (by omega : ¬(5:ℤ) > 5)]

/-- Flag characterization of the contact query along the scenario column:
for any Y above the tile's bottom edge, OnGround holds exactly on the
tolerance band [128,130] and CollisionY exactly on (130,160). -/
theorem extremeLevel_flags (y : ℚ) (hy : y < 160) :
    ((extremeLevel.CheckCollision 64 y 32 32).OnGround = true ↔ (128 ≤ y ∧ y ≤ 130)) ∧
    ((extremeLevel.CheckCollision 64 y 32 32).CollisionY = true ↔ 130 < y) := by
  rcases lt_or_le y 128 with h | h
  · rw [extremeLevel_cc_low y h]
    refine ⟨iff_of_false (by decide) ?_, iff_of_false (by decide) ?_⟩
    · rintro ⟨ha, _⟩
      linarith
    · intro ha
      linarith
  · rcases lt_or_le y 129 with h' | h'
    · rw [extremeLevel_cc_band1 y h h']
      refine ⟨iff_of_true rfl ⟨h, by linarith⟩, iff_of_false ?_ ?_⟩
      · intro hc
        exact Bool.false_ne_true hc
      · intro ha
        linarith
    · rcases le_or_lt y 130 with h'' | h''
      · rw [extremeLevel_cc_band2 y h' h'']
        refine ⟨iff_of_true rfl ⟨h, h''⟩, iff_of_false ?_ ?_⟩
        · intro hc
          exact Bool.false_ne_true hc
        · intro ha
          linarith
      · rw [extremeLevel_cc_mid y h'' hy]
        refine ⟨iff_of_false ?_ ?_, iff_of_true rfl h''⟩
        · intro hc
          exact Bool.false_ne_true hc
        · rintro ⟨_, hb⟩
          linarith

end Platformer

namespace Platformer

theorem bsYDownLoop_inv : ∀ (fuel : Nat) (l r b : ℚ), l ≤ r → r < 160 → b ≤ 128 →
    (bsYDownLoop extremeLevel 64 32 32 fuel (l, r, b)).2.2 ≤ 128 := by
  intro fuel
  induction fuel with
  | zero => intro l r b _ _ hb; exact hb
  | succ n ih =>
      intro l r b hlr hr hb
      unfold bsYDownLoop
      dsimp only
      split
      · exact hb
      · have hmid_le : (l + r) / 2 ≤ r := by linarith
        have hmid_ge : l ≤ (l + r) / 2 := by linarith
        have hmid_lt : (l + r) / 2 < 160 := by linarith
        split
        · exact ih l _ b hmid_ge (by linarith) hb
        · rename_i hclear
          have hflags := extremeLevel_flags ((l + r) / 2) hmid_lt
          have hmle : (l + r) / 2 ≤ 128 := by
            by_contra hgt
            push_neg at hgt
            rcases le_or_lt ((l + r) / 2) 130 with hle | hlt
            · exact hclear (Or.inr (hflags.1.mpr ⟨le_of_lt hgt, hle⟩))
            · exact hclear (Or.inl (hflags.2.mpr hlt))
          exact ih _ r _ hmid_le hr hmle

end Platformer

namespace Platformer

theorem bsYScan_some : ∀ (fuel : Nat) (offset finalY : ℚ) (hit : ℚ × Bool),
    0 ≤ offset → finalY + offset - 1/10 < 128 →
    bsYScanLoop extremeLevel 64 32 32 finalY fuel offset = some hit →
    hit.2 = true ∧ 128 ≤ hit.1 ∧ hit.1 < 128 + 1/10 := by
  intro fuel
  induction fuel with
  | zero =>
      intro offset finalY hit _ _ heq
      exact absurd heq (by simp [bsYScanLoop])
  | succ n ih =>
      intro offset finalY hit hoff hpre heq
      unfold bsYScanLoop at heq
      dsimp only at heq
      by_cases hle : offset ≤ 1
      · rw [if_pos hle] at heq
        have htY : finalY + offset < 160 := by linarith
        have hflags := extremeLevel_flags (finalY + offset) htY
        by_cases hhit : (extremeLevel.CheckCollision 64 (finalY + offset) 32 32).OnGround = true ∨
            (extremeLevel.CheckCollision 64 (finalY + offset) 32 32).CollisionY = true
        · rw [if_pos hhit] at heq
          injection heq with heq'
          subst heq'
          have hband : 128 ≤ finalY + offset := by
            rcases hhit with hg | hc
            · exact (hflags.1.mp hg).1
            · have := hflags.2.mp hc
              linarith
          have hcyF : ¬(extremeLevel.CheckCollision 64 (finalY + offset) 32 32).CollisionY = true := by
            intro hc
            have := hflags.2.mp hc
            linarith
          have hogT : (extremeLevel.CheckCollision 64 (finalY + offset) 32 32).OnGround = true := by
            rcases hhit with hg | hc
            · exact hg
            · exact absurd hc hcyF
          exact ⟨hogT, hband, by linarith⟩
        · rw [if_neg hhit] at heq
          have hmiss : finalY + offset < 128 := by
            by_contra hge
            push_neg at hge
            exact hhit (Or.inl (hflags.1.mpr ⟨hge, by linarith⟩))
          exact ih (offset + 1/10) finalY hit (by linarith) (by linarith) heq
      · rw [if_neg hle] at heq
        exact absurd heq (by simp)

theorem bsYScan_none : ∀ (fuel : Nat) (offset finalY : ℚ),
    0 ≤ offset → finalY + offset - 1/10 < 128 → (11:ℚ) ≤ 10 * offset + (fuel : ℚ) →
    bsYScanLoop extremeLevel 64 32 32 finalY fuel offset = none →
    (offset ≤ 1 → finalY + offset < 128) := by
  intro fuel
  induction fuel with
  | zero =>
      intro offset finalY _ _ hsum _ hle
      push_cast at hsum
      linarith
  | succ n ih =>
      intro offset finalY hoff hpre hsum heq hle
      unfold bsYScanLoop at heq
      dsimp only at heq
      rw [if_pos hle] at heq
      have htY : finalY + offset < 160 := by linarith
      have hflags := extremeLevel_flags (finalY + offset) htY
      by_cases hhit : (extremeLevel.CheckCollision 64 (finalY + offset) 32 32).OnGround = true ∨
          (extremeLevel.CheckCollision 64 (finalY + offset) 32 32).CollisionY = true
      · rw [if_pos hhit] at heq
        exact absurd heq (by simp)
      · by_contra hge
        push_neg at hge
        exact hhit (Or.inl (hflags.1.mpr ⟨hge, by linarith⟩))

end Platformer

namespace Platformer

theorem bsYDown_spec (p : Player) (startY deltaY : ℚ) (hw : p.Width = 32) (hh : p.Height = 32)
    (hsy : startY ≤ 128) (hdy : 0 < deltaY) (htgt : startY + deltaY < 160) :
    (128 ≤ (p.binarySearchCollisionY extremeLevel 64 startY deltaY).1 ∧
     (p.binarySearchCollisionY extremeLevel 64 startY deltaY).1 < 128 + 1/10 ∧
     (p.binarySearchCollisionY extremeLevel 64 startY deltaY).2.OnGround = true ∧
     (p.binarySearchCollisionY extremeLevel 64 startY deltaY).2.VelocityY = 0 ∧
     (p.binarySearchCollisionY extremeLevel 64 startY deltaY).2.X = p.X ∧
     (p.binarySearchCollisionY extremeLevel 64 startY deltaY).2.VelocityX = p.VelocityX ∧
     (p.binarySearchCollisionY extremeLevel 64 startY deltaY).2.Width = p.Width ∧
     (p.binarySearchCollisionY extremeLevel 64 startY deltaY).2.Height = p.Height ∧
     (p.binarySearchCollisionY extremeLevel 64 startY deltaY).2.Gravity = p.Gravity ∧
     (p.binarySearchCollisionY extremeLevel 64 startY deltaY).2.level = p.level) ∨
    ((p.binarySearchCollisionY extremeLevel 64 startY deltaY).1 < 128 ∧
     (p.binarySearchCollisionY extremeLevel 64 startY deltaY).2 = p) := by
  unfold Player.binarySearchCollisionY
  rw [if_pos hdy, hw, hh]
  dsimp only
  have hbest := bsYDownLoop_inv BinarySearchMaxIterationsY startY (startY + deltaY) startY
    (by linarith) htgt hsy
  cases hscan : bsYScanLoop extremeLevel 64 32 32
      (bsYDownLoop extremeLevel 64 32 32 BinarySearchMaxIterationsY
        (startY, startY + deltaY, startY)).2.2 12 0 with
  | none =>
      right
      have hlt := bsYScan_none 12 0 _ le_rfl (by linarith) (by norm_num) hscan (by norm_num)
      exact ⟨by linarith, rfl⟩
  | some hit =>
      left
      have hs := bsYScan_some 12 0 _ hit le_rfl (by linarith) hscan
      dsimp only
      rw [hs.1]
      exact ⟨hs.2.1, hs.2.2, rfl, rfl, rfl, rfl, rfl, rfl, rfl, rfl⟩

theorem sweptV_spec (p : Player) (startY deltaY : ℚ) (hw : p.Width = 32) (hh : p.Height = 32)
    (hsy : startY ≤ 128) (hdy : 0 < deltaY) (htgt : startY + deltaY < 160) :
    (128 ≤ (p.sweptVerticalMovement extremeLevel 64 startY deltaY).1 ∧
     (p.sweptVerticalMovement extremeLevel 64 startY deltaY).1 < 128 + 1/10 ∧
     (p.sweptVerticalMovement extremeLevel 64 startY deltaY).2.OnGround = true ∧
     (p.sweptVerticalMovement extremeLevel 64 startY deltaY).2.VelocityY = 0 ∧
     (p.sweptVerticalMovement extremeLevel 64 startY deltaY).2.X = p.X ∧
     (p.sweptVerticalMovement extremeLevel 64 startY deltaY).2.VelocityX = p.VelocityX ∧
     (p.sweptVerticalMovement extremeLevel 64 startY deltaY).2.Width = p.Width ∧
     (p.sweptVerticalMovement extremeLevel 64 startY deltaY).2.Height = p.Height ∧
     (p.sweptVerticalMovement extremeLevel 64 startY deltaY).2.Gravity = p.Gravity ∧
     (p.sweptVerticalMovement extremeLevel 64 startY deltaY).2.level = p.level) ∨
    ((p.sweptVerticalMovement extremeLevel 64 startY deltaY).1 < 128 ∧
     (p.sweptVerticalMovement extremeLevel 64 startY deltaY).2 = p) := by
  unfold Player.sweptVerticalMovement
  rw [hw, hh]
  dsimp only
  have hflags := extremeLevel_flags (startY + deltaY) htgt
  by_cases hT : 128 ≤ startY + deltaY
  · have hcond : ¬(¬(extremeLevel.CheckCollision 64 (startY + deltaY) 32 32).CollisionY = true ∧
        ¬(extremeLevel.CheckCollision 64 (startY + deltaY) 32 32).OnGround = true) := by
      rintro ⟨hc1, hc2⟩
      rcases le_or_lt (startY + deltaY) 130 with hle | hlt
      · exact hc2 (hflags.1.mpr ⟨hT, hle⟩)
      · exact hc1 (hflags.2.mpr hlt)
    rw [if_neg hcond]
    have h := bsYDown_spec p startY deltaY hw hh hsy hdy htgt
    rw [hw, hh] at h
    exact h
  · push_neg at hT
    have hcond : (¬(extremeLevel.CheckCollision 64 (startY + deltaY) 32 32).CollisionY = true ∧
        ¬(extremeLevel.CheckCollision 64 (startY + deltaY) 32 32).OnGround = true) := by
      constructor
      · intro hc
        have := hflags.2.mp hc
        linarith
      · intro hg
        have := (hflags.1.mp hg).1
        linarith
    rw [if_pos hcond]
    exact Or.inr ⟨hT, rfl⟩

end Platformer

namespace Platformer

theorem integrateForces_proj (p : Player) (dt : ℚ) :
    (p.integrateForces dt).X = p.X ∧ (p.integrateForces dt).Y = p.Y ∧
    (p.integrateForces dt).Width = p.Width ∧ (p.integrateForces dt).Height = p.Height ∧
    (p.integrateForces dt).Gravity = p.Gravity ∧ (p.integrateForces dt).level = p.level ∧
    (p.integrateForces dt).OnGround = p.OnGround ∧
    (p.integrateForces dt).VelocityX = p.VelocityX * p.Friction := by
  unfold Player.integrateForces
  dsimp only
  split
  all_goals exact ⟨rfl, rfl, rfl, rfl, rfl, rfl, rfl, rfl⟩

theorem integrateForces_velY_ground (p : Player) (dt : ℚ) (h : p.OnGround = true) :
    (p.integrateForces dt).VelocityY = p.VelocityY := by
  unfold Player.integrateForces
  dsimp only
  rw [if_neg (by simp [h])]

theorem integrateForces_velY_air (p : Player) (dt : ℚ) (h : p.OnGround = false) :
    (p.integrateForces dt).VelocityY = p.VelocityY + p.Gravity * dt := by
  unfold Player.integrateForces
  dsimp only
  rw [if_pos (by simp [h])]

theorem c1Pre_X (s : Player) : (c1Pre s).X = s.X :=
  (integrateForces_proj s (1/60)).1

theorem c1Pre_Y (s : Player) : (c1Pre s).Y = s.Y :=
  (integrateForces_proj s (1/60)).2.1

theorem c1Pre_Width (s : Player) : (c1Pre s).Width = s.Width :=
  (integrateForces_proj s (1/60)).2.2.1

theorem c1Pre_Height (s : Player) : (c1Pre s).Height = s.Height :=
  (integrateForces_proj s (1/60)).2.2.2.1

theorem c1Pre_Gravity (s : Player) : (c1Pre s).Gravity = s.Gravity :=
  (integrateForces_proj s (1/60)).2.2.2.2.1

theorem c1Pre_level (s : Player) : (c1Pre s).level = s.level :=
  (integrateForces_proj s (1/60)).2.2.2.2.2.1

theorem c1Pre_OnGround (s : Player) : (c1Pre s).OnGround = false := rfl

theorem c1Pre_VelocityX (s : Player) : (c1Pre s).VelocityX = s.VelocityX * s.Friction :=
  (integrateForces_proj s (1/60)).2.2.2.2.2.2.2

theorem c1Pre_velY_ground (s : Player) (h : s.OnGround = true) :
    (c1Pre s).VelocityY = s.VelocityY :=
  integrateForces_velY_ground s (1/60) h

theorem c1Pre_velY_air (s : Player) (h : s.OnGround = false) :
    (c1Pre s).VelocityY = s.VelocityY + s.Gravity * (1/60) :=
  integrateForces_velY_air s (1/60) h

theorem maq_eq (s : Player) (lv : Level) :
    s.moveAndQuery (1/60) lv =
      ({ ((c1Pre s).performSweptMovement s.X s.Y
            ((s.integrateForces (1/60)).VelocityX * (1/60))
            ((s.integrateForces (1/60)).VelocityY * (1/60))).2.2 with
          X := ((c1Pre s).performSweptMovement s.X s.Y
            ((s.integrateForces (1/60)).VelocityX * (1/60))
            ((s.integrateForces (1/60)).VelocityY * (1/60))).1,
          Y := ((c1Pre s).performSweptMovement s.X s.Y
            ((s.integrateForces (1/60)).VelocityX * (1/60))
            ((s.integrateForces (1/60)).VelocityY * (1/60))).2.1 },
       lv.CheckCollision
         ((c1Pre s).performSweptMovement s.X s.Y
            ((s.integrateForces (1/60)).VelocityX * (1/60))
            ((s.integrateForces (1/60)).VelocityY * (1/60))).1
         ((c1Pre s).performSweptMovement s.X s.Y
            ((s.integrateForces (1/60)).VelocityX * (1/60))
            ((s.integrateForces (1/60)).VelocityY * (1/60))).2.1
         ((c1Pre s).performSweptMovement s.X s.Y
            ((s.integrateForces (1/60)).VelocityX * (1/60))
            ((s.integrateForces (1/60)).VelocityY * (1/60))).2.2.Width
         ((c1Pre s).performSweptMovement s.X s.Y
            ((s.integrateForces (1/60)).VelocityX * (1/60))
            ((s.integrateForces (1/60)).VelocityY * (1/60))).2.2.Height) := rfl

theorem psm_zero_both (p : Player) (sx sy : ℚ) :
    p.performSweptMovement sx sy 0 0 = (sx, sy, p) := by
  unfold Player.performSweptMovement
  cases hl : p.level with
  | none => norm_num
  | some lv =>
      dsimp only
      rw [if_neg (fun h => h rfl), if_neg (fun h => h rfl)]

theorem psm_zero_dx (p : Player) (sx sy dy : ℚ) (hlv : p.level = some extremeLevel)
    (hdy : dy ≠ 0) :
    p.performSweptMovement sx sy 0 dy =
      (sx, (p.sweptVerticalMovement extremeLevel sx sy dy).1,
           (p.sweptVerticalMovement extremeLevel sx sy dy).2) := by
  unfold Player.performSweptMovement
  rw [hlv]
  dsimp only
  rw [if_neg (fun h => h rfl), if_pos hdy]

end Platformer

namespace Platformer

theorem C1_maq (s : Player) (hX : s.X = 64) (hVX : s.VelocityX = 0) (hW : s.Width = 32)
    (hH : s.Height = 32) (hG : s.Gravity = 500) (hlv : s.level = some extremeLevel)
    (hvy : 0 ≤ s.VelocityY)
    (hyb : s.OnGround = false → s.Y ≤ 128)
    (hd : s.OnGround = false → s.Y + (s.VelocityY + 25/3) * (1/60) < 160)
    (hogT : s.OnGround = true → 128 ≤ s.Y ∧ s.Y ≤ 130 ∧ s.VelocityY = 0) :
    ((s.moveAndQuery (1/60) extremeLevel).1.X = 64 ∧
     (s.moveAndQuery (1/60) extremeLevel).1.VelocityX = 0 ∧
     (s.moveAndQuery (1/60) extremeLevel).1.Width = 32 ∧
     (s.moveAndQuery (1/60) extremeLevel).1.Height = 32 ∧
     (s.moveAndQuery (1/60) extremeLevel).1.Gravity = 500 ∧
     (s.moveAndQuery (1/60) extremeLevel).1.level = some extremeLevel) ∧
    ((s.OnGround = true ∧
      (s.moveAndQuery (1/60) extremeLevel).1.OnGround = false ∧
      128 ≤ (s.moveAndQuery (1/60) extremeLevel).1.Y ∧
      (s.moveAndQuery (1/60) extremeLevel).1.Y ≤ 130 ∧
      (s.moveAndQuery (1/60) extremeLevel).1.VelocityY = 0 ∧
      (s.moveAndQuery (1/60) extremeLevel).2 =
        { emptyResult with Collided := true, OnGround := true }) ∨
     ((s.moveAndQuery (1/60) extremeLevel).1.OnGround = true ∧
      128 ≤ (s.moveAndQuery (1/60) extremeLevel).1.Y ∧
      (s.moveAndQuery (1/60) extremeLevel).1.Y ≤ 130 ∧
      (s.moveAndQuery (1/60) extremeLevel).1.VelocityY = 0 ∧
      (s.moveAndQuery (1/60) extremeLevel).2 =
        { emptyResult with Collided := true, OnGround := true }) ∨
     (s.OnGround = false ∧
      (s.moveAndQuery (1/60) extremeLevel).1.OnGround = false ∧
      (s.moveAndQuery (1/60) extremeLevel).1.Y < 128 ∧
      0 ≤ (s.moveAndQuery (1/60) extremeLevel).1.VelocityY ∧
      (s.moveAndQuery (1/60) extremeLevel).2 = emptyResult)) := by
  have hdx0 : (s.integrateForces (1/60)).VelocityX * (1/60) = 0 := by
    rw [(integrateForces_proj s (1/60)).2.2.2.2.2.2.2, hVX, zero_mul, zero_mul]
  cases hog : s.OnGround with
  | true =>
      obtain ⟨hy1, hy2, hvy0⟩ := hogT hog
      have hdy0 : (s.integrateForces (1/60)).VelocityY * (1/60) = 0 := by
        rw [integrateForces_velY_ground s (1/60) hog, hvy0, zero_mul]
      rw [maq_eq, hdx0, hdy0, psm_zero_both (c1Pre s) s.X s.Y]
      dsimp only
      have hcc : extremeLevel.CheckCollision s.X s.Y ((c1Pre s).Width) ((c1Pre s).Height) =
          { emptyResult with Collided := true, OnGround := true } := by
        rw [hX, c1Pre_Width, c1Pre_Height, hW, hH]
        rcases lt_or_le s.Y 129 with h9 | h9
        · exact extremeLevel_cc_band1 s.Y hy1 h9
        · exact extremeLevel_cc_band2 s.Y h9 hy2
      refine ⟨⟨hX, ?_, ?_, ?_, ?_, ?_⟩, Or.inl ⟨rfl, c1Pre_OnGround s, ?_, ?_, ?_, hcc⟩⟩
      · rw [c1Pre_VelocityX, hVX, zero_mul]
      · rw [c1Pre_Width, hW]
      · rw [c1Pre_Height, hH]
      · rw [c1Pre_Gravity, hG]
      · rw [c1Pre_level, hlv]
      · exact hy1
      · exact hy2
      · rw [c1Pre_velY_ground s hog, hvy0]
  | false =>
      have hyb' := hyb hog
      have hd' := hd hog
      have hdyE : (s.integrateForces (1/60)).VelocityY * (1/60) =
          (s.VelocityY + 25/3) * (1/60) := by
        rw [integrateForces_velY_air s (1/60) hog, hG]
        norm_num
      have hdyp : (0:ℚ) < (s.VelocityY + 25/3) * (1/60) :=
        mul_pos (by linarith) (by norm_num)
      rw [maq_eq, hdx0, hdyE,
        psm_zero_dx (c1Pre s) s.X s.Y ((s.VelocityY + 25/3) * (1/60))
          ((c1Pre_level s).trans hlv) (ne_of_gt hdyp)]
      dsimp only
      rw [hX]
      have hsp := sweptV_spec (c1Pre s) s.Y ((s.VelocityY + 25/3) * (1/60))
        ((c1Pre_Width s).trans hW) ((c1Pre_Height s).trans hH) hyb' hdyp hd'
      rcases hsp with ⟨g1, g2, g3, g4, g5, g6, g7, g8, g9, g10⟩ | ⟨g1, g2⟩
      · refine ⟨⟨?_, ?_, ?_, ?_, ?_, ?_⟩,
          Or.inr (Or.inl ⟨g3, g1, by linarith, g4, ?_⟩)⟩
        · rfl
        · rw [g6, c1Pre_VelocityX, hVX, zero_mul]
        · rw [g7, c1Pre_Width, hW]
        · rw [g8, c1Pre_Height, hH]
        · rw [g9, c1Pre_Gravity, hG]
        · rw [g10, c1Pre_level, hlv]
        · rw [g7, c1Pre_Width, hW, g8, c1Pre_Height, hH]
          exact extremeLevel_cc_band1 _ g1 (by linarith)
      · refine ⟨⟨?_, ?_, ?_, ?_, ?_, ?_⟩,
          Or.inr (Or.inr ⟨rfl, ?_, g1, ?_, ?_⟩)⟩
        · rfl
        · rw [g2, c1Pre_VelocityX, hVX, zero_mul]
        · rw [g2, c1Pre_Width, hW]
        · rw [g2, c1Pre_Height, hH]
        · rw [g2, c1Pre_Gravity, hG]
        · rw [g2, c1Pre_level, hlv]
        · rw [g2, c1Pre_OnGround]
        · rw [g2, c1Pre_velY_air s hog, hG]
          linarith
        · rw [g2, c1Pre_Width, hW, c1Pre_Height, hH]
          exact extremeLevel_cc_low _ g1

end Platformer

namespace Platformer

theorem C1Inv_updatePhysics (s : Player) (hInv : C1Inv s)
    (hd : s.OnGround = false → s.Y + (s.VelocityY + 25/3) * (1/60) < 160) :
    C1Inv (s.updatePhysics (1/60)) := by
  obtain ⟨hX, hVX, hW, hH, hG, hlv, hvy, hyb, hogT⟩ := hInv
  obtain ⟨⟨qX, qVX, qW, qH, qG, qlv⟩, hcase⟩ :=
    C1_maq s hX hVX hW hH hG hlv hvy hyb hd hogT
  unfold Player.updatePhysics
  rw [hlv]
  dsimp only
  rcases hcase with ⟨hsog, hqog, hy1, hy2, hqvy, hr⟩ |
    ⟨hqog, hy1, hy2, hqvy, hr⟩ | ⟨hsog, hqog, hylt, hqvy0, hr⟩
  · simp only [hr, hqog, hqvy, emptyResult]
    norm_num
    unfold C1Inv
    exact ⟨qX, qVX, qW, qH, qG, qlv, le_refl 0,
      fun h => by simp at h,
      fun _ => ⟨hy1, hy2, rfl⟩⟩
  · simp only [hr, hqog, emptyResult]
    norm_num
    unfold C1Inv
    refine ⟨qX, qVX, qW, qH, qG, qlv, hqvy.symm.le, ?_, ?_⟩
    · intro h
      rw [hqog] at h
      cases h
    · exact fun _ => ⟨hy1, hy2, hqvy⟩
  · simp only [hr, hqog, hsog, emptyResult]
    norm_num
    unfold C1Inv
    exact ⟨qX, qVX, qW, qH, qG, qlv, hqvy0,
      fun _ => le_of_lt hylt,
      fun h => by simp at h⟩

end Platformer

namespace Platformer

theorem uct_c1fields (p : Player) (dt : ℚ) :
    (p.updateCoyoteTime dt).X = p.X ∧ (p.updateCoyoteTime dt).Y = p.Y ∧
    (p.updateCoyoteTime dt).VelocityX = p.VelocityX ∧
    (p.updateCoyoteTime dt).VelocityY = p.VelocityY ∧
    (p.updateCoyoteTime dt).Width = p.Width ∧ (p.updateCoyoteTime dt).Height = p.Height ∧
    (p.updateCoyoteTime dt).Gravity = p.Gravity ∧ (p.updateCoyoteTime dt).level = p.level ∧
    (p.updateCoyoteTime dt).OnGround = p.OnGround := by
  unfold Player.updateCoyoteTime
  dsimp only
  repeat' split
  all_goals exact ⟨rfl, rfl, rfl, rfl, rfl, rfl, rfl, rfl, rfl⟩

theorem C1Inv_uct (p : Player) (dt : ℚ) : C1Inv (p.updateCoyoteTime dt) ↔ C1Inv p := by
  obtain ⟨h1, h2, h3, h4, h5, h6, h7, h8, h9⟩ := uct_c1fields p dt
  unfold C1Inv
  rw [h1, h2, h3, h4, h5, h6, h7, h8, h9]

theorem C1Inv_update (s : Player) (hInv : C1Inv s)
    (hd : s.OnGround = false → s.Y + (s.VelocityY + 25/3) * (1/60) < 160) :
    C1Inv (s.Update (1/60)) := by
  unfold Player.Update
  dsimp only
  rw [C1Inv_uct]
  split
  · split
    · refine C1Inv_updatePhysics _ ?_ ?_
      · exact hInv
      · exact hd
    · refine C1Inv_updatePhysics _ ?_ ?_
      · exact hInv
      · exact hd
  · exact C1Inv_updatePhysics s hInv hd

end Platformer

namespace Platformer

/-- Counterexample to C1 as stated: in the TestExtremeSpeedCollision
scenario (solid tile spanning world Y in [160,192] under a 32-wide box at
X = 64), a fall from Y = 96 at downward velocity 23015/3 (~7671.7 units/sec)
makes one Update tick move the box straight from Y = 96 to Y = 224 — through
the entire tile — with OnGround still false and the box bottom 96 units past
the tile top, far beyond the 2-unit tolerance: the per-tick swept resolver
only queries the target position, so a displacement larger than the tile
tunnels. -/
theorem tunneling_unbounded_velocity_cex :
    (C1Traj 96 (23015/3) 0).Y = 96 ∧ (C1Traj 96 (23015/3) 0).OnGround = false ∧
    (C1Traj 96 (23015/3) 1).OnGround = false ∧
    (C1Traj 96 (23015/3) 1).Y = 224 ∧
    ¬((C1Traj 96 (23015/3) 1).Y + 32 ≤ 160 + GroundTolerance) := by decide

/-- C1 (amended): tunneling freedom holds for every starting height and
every non-negative starting velocity PROVIDED each airborne tick's requested
displacement keeps the target above the tile's bottom edge (target Y < 160,
i.e. at most one tile per tick): then at every tick of the trajectory the
box bottom (Y + 32) never exceeds the tile top (world Y = 160) by more than
the ground tolerance, and whenever OnGround is still false it has not passed
the top at all. -/
theorem tunneling_freedom_bounded (y0 v0 : ℚ) (n : Nat) (hy0 : y0 ≤ 128) (hv0 : 0 ≤ v0)
    (hdisp : ∀ i, i < n → (C1Traj y0 v0 i).OnGround = false →
      (C1Traj y0 v0 i).Y + ((C1Traj y0 v0 i).VelocityY + 25/3) * (1/60) < 160) :
    (C1Traj y0 v0 n).Y + 32 ≤ 160 + GroundTolerance ∧
    ((C1Traj y0 v0 n).OnGround = false → (C1Traj y0 v0 n).Y + 32 ≤ 160) := by
  have hinv : ∀ m, m ≤ n → C1Inv (C1Traj y0 v0 m) := by
    intro m
    induction m with
    | zero =>
        intro _
        unfold C1Inv
        exact ⟨rfl, rfl, rfl, rfl, rfl, rfl, hv0, fun _ => hy0, fun h => nomatch h⟩
    | succ k ih =>
        intro hk
        have hIk := ih (Nat.le_of_succ_le hk)
        have hstep := C1Inv_update (C1Traj y0 v0 k) hIk
          (hdisp k (Nat.lt_of_succ_le hk))
        simpa only [C1Traj] using hstep
  obtain ⟨-, -, -, -, -, -, -, hF, hT⟩ := hinv n le_rfl
  have hGT : GroundTolerance = 2 := rfl
  constructor
  · cases hO : (C1Traj y0 v0 n).OnGround with
    | false =>
        have := hF hO
        rw [hGT]
        linarith
    | true =>
        have := (hT hO).2.1
        rw [hGT]
        linarith
  · intro hO
    have := hF hO
    linarith

/-- Witness for the amended C1 theorem: two ticks of a fall from Y = 96 at
100 units/sec; both airborne displacements stay above the tile bottom. -/
theorem tunneling_freedom_bounded_witness :
    (C1Traj 96 100 2).Y + 32 ≤ 160 + GroundTolerance ∧
    ((C1Traj 96 100 2).OnGround = false → (C1Traj 96 100 2).Y + 32 ≤ 160) :=
  tunneling_freedom_bounded 96 100 2 (by norm_num) (by norm_num)
    (by
      intro i hi hog
      interval_cases i
      · revert hog
        decide
      · revert hog
        decide)

end Platformer
